import Mathlib

/-!
# sw_analyse backend: persistence store and resource handlers

A shallow embedding of `backend/internal/models`, `backend/internal/storage`
and `backend/internal/handlers`.

* Go `string` values are modelled by `String`; `json.RawMessage` (a byte slice)
  by `RawMessage`, a wrapper around its byte content, so that the conversions
  `string(p.Days)` and `[]byte(days)` of the store are visible in the model.
* The SQLite database is modelled by its five tables, each a list of rows in
  rowid order.  One SQL statement is one function on the table.
* The outcome of the database engine for the one statement an operation
  issues is an explicit input (`fault`): `none` when the engine executes the
  statement, `some e` when it fails with the error text `e`.
* Clock and randomness are explicit inputs of the handlers (`Env`).
-/

set_option autoImplicit false

namespace SwAnalyse

/-! ## models/models.go -/

/-- Go `json.RawMessage`: the byte content of the slice. -/
structure RawMessage where
  bytes : String
  deriving DecidableEq, Repr

/-- Go conversion `string(b)` of a byte slice. -/
def RawMessage.toGoString (m : RawMessage) : String := m.bytes

/-- Go conversion `[]byte(s)` of a string. -/
def RawMessage.ofGoString (s : String) : RawMessage := ⟨s⟩

/-- The Go struct `models.Player`; the pointer fields are optional strings. -/
structure Player where
  ID : String
  Name : String
  Height : Option String
  Weight : Option String
  Level : String
  DOB : Option String
  Notes : String
  CreatedAt : String
  UpdatedAt : String
  deriving DecidableEq, Repr

/-- The Go struct `models.WeekPlan`. -/
structure WeekPlan where
  ID : String
  PlayerID : String
  Week : String
  Days : RawMessage
  TotalRPE : Int
  CreatedAt : String
  deriving DecidableEq, Repr

/-- The Go struct `models.Media`; the field `Type` is written `Type_`. -/
structure Media where
  ID : String
  ExerciseID : String
  Type_ : String
  Data : String
  Name : String
  CreatedAt : String
  deriving DecidableEq, Repr

/-- The Go struct `models.PlayerLog`. -/
structure PlayerLog where
  ID : String
  Entries : RawMessage
  UpdatedAt : String
  deriving DecidableEq, Repr

/-- The Go struct `models.Setting`. -/
structure Setting where
  Key : String
  Value : String
  deriving DecidableEq, Repr

/-! ## storage/sqlite.go: schema (`createTables`) -/

/-- A row of table `players`. -/
structure PlayersRow where
  id : String
  name : String
  height : Option String
  weight : Option String
  level : String
  dob : Option String
  notes : String
  created_at : String
  updated_at : String
  deriving DecidableEq, Repr

/-- A row of table `week_plans`. -/
structure WeekPlansRow where
  id : String
  player_id : String
  week : String
  days : String
  total_rpe : Int
  created_at : String
  deriving DecidableEq, Repr

/-- A row of table `media`. -/
structure MediaRow where
  id : String
  exercise_id : String
  type : String
  data : String
  name : String
  created_at : String
  deriving DecidableEq, Repr

/-- A row of table `player_logs`. -/
structure PlayerLogsRow where
  id : String
  entries : String
  updated_at : String
  deriving DecidableEq, Repr

/-- A row of table `settings`. -/
structure SettingsRow where
  key : String
  value : String
  deriving DecidableEq, Repr

/-- The database behind `storage.DB`: the five tables, rows in rowid order. -/
structure DB where
  players : List PlayersRow
  week_plans : List WeekPlansRow
  media : List MediaRow
  player_logs : List PlayerLogsRow
  settings : List SettingsRow
  deriving DecidableEq, Repr

/-- The errors the store hands to its callers. -/
inductive StoreErr where
  /-- The sentinel `sql.ErrNoRows`. -/
  | errNoRows
  /-- The result of `fmt.Errorf("<op>: %w", err)`: an engine error with its context. -/
  | wrapped (op : String) (cause : String)
  /-- An engine error returned as it is (`rows.Err()`). -/
  | engine (cause : String)
  deriving DecidableEq, Repr

/-! ## The SQL statements -/

namespace Sql

variable {ρ : Type}

/-- The PRIMARY KEY constraint: no two rows of the table share a key. -/
def UniqueKeys (key : ρ → String) (t : List ρ) : Prop := (t.map key).Nodup

instance (key : ρ → String) (t : List ρ) : Decidable (UniqueKeys key t) := by
  unfold UniqueKeys; infer_instance

/-- Whether some row of the table has the key `k`. -/
def hasKey (key : ρ → String) (t : List ρ) (k : String) : Bool :=
  t.any (fun x => key x == k)

/-- The statement `INSERT INTO t VALUES (...) ON CONFLICT(key) DO UPDATE SET ...`:
the row `r` is appended when no row has its key; otherwise the row with that
key becomes `set old r`, where `r` plays the part of `excluded`. -/
def insertOnConflict (key : ρ → String) (set : ρ → ρ → ρ) (t : List ρ) (r : ρ) : List ρ :=
  if hasKey key t (key r) then
    t.map (fun old => if key old = key r then set old r else old)
  else
    t ++ [r]

/-- The statement `SELECT ... FROM t WHERE key = ?` read by `QueryRow(...).Scan`:
the first matching row, or none (`sql.ErrNoRows`). -/
def queryRow (key : ρ → String) (t : List ρ) (k : String) : Option ρ :=
  t.find? (fun x => key x == k)

/-- The table after the statement `DELETE FROM t WHERE key = ?`. -/
def deleteWhere (key : ρ → String) (t : List ρ) (k : String) : List ρ :=
  t.filter (fun x => key x != k)

/-- The count `RowsAffected()` of the statement `DELETE FROM t WHERE key = ?`. -/
def rowsAffected (key : ρ → String) (t : List ρ) (k : String) : Nat :=
  (t.filter (fun x => key x == k)).length

end Sql

/-- The whole database satisfies its PRIMARY KEY constraints. -/
def DB.WF (d : DB) : Prop :=
  Sql.UniqueKeys PlayersRow.id d.players ∧
  Sql.UniqueKeys WeekPlansRow.id d.week_plans ∧
  Sql.UniqueKeys MediaRow.id d.media ∧
  Sql.UniqueKeys PlayerLogsRow.id d.player_logs ∧
  Sql.UniqueKeys SettingsRow.key d.settings

instance (d : DB) : Decidable d.WF := by
  unfold DB.WF; infer_instance

/-- The empty database, as `createTables` leaves a new file. -/
def DB.empty : DB := ⟨[], [], [], [], []⟩

/-- The faults of a multi-row query: `Query` fails, `Scan` of a row fails, or
the iteration ends with an error (`rows.Err()`). -/
inductive QueryFault where
  | query (e : String)
  | scan (e : String)
  | rows (e : String)
  deriving DecidableEq, Repr

/-! ## storage/sqlite.go: players -/

/-- The call `rows.Scan(&p.ID, &p.Name, ...)` on a row of `players`. -/
def scanPlayer (r : PlayersRow) : Player :=
  { ID := r.id, Name := r.name, Height := r.height, Weight := r.weight, Level := r.level,
    DOB := r.dob, Notes := r.notes, CreatedAt := r.created_at, UpdatedAt := r.updated_at }

/-- The values `p.ID, p.Name, ..., p.UpdatedAt` bound to the INSERT of `UpsertPlayer`. -/
def playerValues (p : Player) : PlayersRow :=
  { id := p.ID, name := p.Name, height := p.Height, weight := p.Weight, level := p.Level,
    dob := p.DOB, notes := p.Notes, created_at := p.CreatedAt, updated_at := p.UpdatedAt }

/-- The clause `DO UPDATE SET name=excluded.name, height=excluded.height,
weight=excluded.weight, level=excluded.level, dob=excluded.dob, notes=excluded.notes,
updated_at=excluded.updated_at` of `UpsertPlayer`. -/
def playerSet (old excluded : PlayersRow) : PlayersRow :=
  { old with name := excluded.name, height := excluded.height, weight := excluded.weight,
             level := excluded.level, dob := excluded.dob, notes := excluded.notes,
             updated_at := excluded.updated_at }

/-- The query `SELECT ... FROM players ORDER BY name` of `GetAllPlayers`, scanned row by row.  Rows of equal
name keep their rowid order. -/
def GetAllPlayers (d : DB) (fault : Option QueryFault) : Except StoreErr (List Player) :=
  let rows := List.insertionSort (fun a b : PlayersRow => a.name ≤ b.name) d.players
  match fault with
  | some (.query e) => .error (.wrapped "query players" e)
  | some (.scan e) =>
      if rows.isEmpty then .ok [] else .error (.wrapped "scan player" e)
  | some (.rows e) => .error (.engine e)
  | none => .ok (rows.map scanPlayer)

/-- The function `GetPlayer`: `(nil, nil)` is `ok none`. -/
def GetPlayer (d : DB) (id : String) (fault : Option String) : Except StoreErr (Option Player) :=
  match fault with
  | some e => .error (.wrapped ("query player " ++ id) e)
  | none =>
    match Sql.queryRow PlayersRow.id d.players id with
    | none => .ok none
    | some r => .ok (some (scanPlayer r))

/-- The function `UpsertPlayer`: the database after the call and the error returned
(`none` for `nil`).  A statement the engine fails leaves the database as it was. -/
def UpsertPlayer (d : DB) (p : Player) (fault : Option String) : DB × Option StoreErr :=
  match fault with
  | some e => (d, some (.wrapped "upsert player" e))
  | none =>
    ({ d with players := Sql.insertOnConflict PlayersRow.id playerSet d.players (playerValues p) }, none)

/-- The function `DeletePlayer`: the database after the call and the error returned. -/
def DeletePlayer (d : DB) (id : String) (fault : Option String) : DB × Option StoreErr :=
  match fault with
  | some e => (d, some (.wrapped "delete player" e))
  | none =>
    let n := Sql.rowsAffected PlayersRow.id d.players id
    let d' := { d with players := Sql.deleteWhere PlayersRow.id d.players id }
    if n = 0 then (d', some .errNoRows) else (d', none)

/-! ## storage/sqlite.go: week plans -/

/-- The call `rows.Scan(&p.ID, &p.PlayerID, &p.Week, &days, &p.TotalRPE, &p.CreatedAt)`
followed by `p.Days = []byte(days)`. -/
def scanWeekPlan (r : WeekPlansRow) : WeekPlan :=
  { ID := r.id, PlayerID := r.player_id, Week := r.week, Days := RawMessage.ofGoString r.days,
    TotalRPE := r.total_rpe, CreatedAt := r.created_at }

/-- The values `p.ID, p.PlayerID, p.Week, days, p.TotalRPE, p.CreatedAt` bound to the
INSERT of `UpsertWeekPlan`, with `days := string(p.Days)`. -/
def weekPlanValues (p : WeekPlan) : WeekPlansRow :=
  { id := p.ID, player_id := p.PlayerID, week := p.Week, days := p.Days.toGoString,
    total_rpe := p.TotalRPE, created_at := p.CreatedAt }

/-- The clause `DO UPDATE SET player_id=excluded.player_id, week=excluded.week,
days=excluded.days, total_rpe=excluded.total_rpe` of `UpsertWeekPlan`. -/
def weekPlanSet (old excluded : WeekPlansRow) : WeekPlansRow :=
  { old with player_id := excluded.player_id, week := excluded.week, days := excluded.days,
             total_rpe := excluded.total_rpe }

/-- The query `SELECT ... FROM week_plans ORDER BY created_at DESC` of `GetAllWeekPlans`, scanned row by row. -/
def GetAllWeekPlans (d : DB) (fault : Option QueryFault) : Except StoreErr (List WeekPlan) :=
  let rows := List.insertionSort (fun a b : WeekPlansRow => b.created_at ≤ a.created_at) d.week_plans
  match fault with
  | some (.query e) => .error (.wrapped "query week_plans" e)
  | some (.scan e) =>
      if rows.isEmpty then .ok [] else .error (.wrapped "scan week_plan" e)
  | some (.rows e) => .error (.engine e)
  | none => .ok (rows.map scanWeekPlan)

/-- The function `GetWeekPlan`: `(nil, nil)` is `ok none`. -/
def GetWeekPlan (d : DB) (id : String) (fault : Option String) : Except StoreErr (Option WeekPlan) :=
  match fault with
  | some e => .error (.wrapped ("query week_plan " ++ id) e)
  | none =>
    match Sql.queryRow WeekPlansRow.id d.week_plans id with
    | none => .ok none
    | some r => .ok (some (scanWeekPlan r))

/-- The function `UpsertWeekPlan`. -/
def UpsertWeekPlan (d : DB) (p : WeekPlan) (fault : Option String) : DB × Option StoreErr :=
  match fault with
  | some e => (d, some (.wrapped "upsert week_plan" e))
  | none =>
    ({ d with week_plans := Sql.insertOnConflict WeekPlansRow.id weekPlanSet d.week_plans (weekPlanValues p) }, none)

/-- The function `DeleteWeekPlan`. -/
def DeleteWeekPlan (d : DB) (id : String) (fault : Option String) : DB × Option StoreErr :=
  match fault with
  | some e => (d, some (.wrapped "delete week_plan" e))
  | none =>
    let n := Sql.rowsAffected WeekPlansRow.id d.week_plans id
    let d' := { d with week_plans := Sql.deleteWhere WeekPlansRow.id d.week_plans id }
    if n = 0 then (d', some .errNoRows) else (d', none)

/-! ## storage/sqlite.go: media -/

/-- The call `rows.Scan(&m.ID, &m.ExerciseID, &m.Type, &m.Data, &m.Name, &m.CreatedAt)`. -/
def scanMedia (r : MediaRow) : Media :=
  { ID := r.id, ExerciseID := r.exercise_id, Type_ := r.type, Data := r.data, Name := r.name,
    CreatedAt := r.created_at }

/-- The values `m.ID, m.ExerciseID, m.Type, m.Data, m.Name, m.CreatedAt` bound to the
INSERT of `UpsertMedia`. -/
def mediaValues (m : Media) : MediaRow :=
  { id := m.ID, exercise_id := m.ExerciseID, type := m.Type_, data := m.Data, name := m.Name,
    created_at := m.CreatedAt }

/-- The clause `DO UPDATE SET exercise_id=excluded.exercise_id, type=excluded.type,
data=excluded.data, name=excluded.name` of `UpsertMedia`. -/
def mediaSet (old excluded : MediaRow) : MediaRow :=
  { old with exercise_id := excluded.exercise_id, type := excluded.type, data := excluded.data,
             name := excluded.name }

/-- The query `SELECT ... FROM media ORDER BY created_at DESC` of `GetAllMedia`, scanned row by row. -/
def GetAllMedia (d : DB) (fault : Option QueryFault) : Except StoreErr (List Media) :=
  let rows := List.insertionSort (fun a b : MediaRow => b.created_at ≤ a.created_at) d.media
  match fault with
  | some (.query e) => .error (.wrapped "query media" e)
  | some (.scan e) =>
      if rows.isEmpty then .ok [] else .error (.wrapped "scan media" e)
  | some (.rows e) => .error (.engine e)
  | none => .ok (rows.map scanMedia)

/-- The function `UpsertMedia`. -/
def UpsertMedia (d : DB) (m : Media) (fault : Option String) : DB × Option StoreErr :=
  match fault with
  | some e => (d, some (.wrapped "upsert media" e))
  | none =>
    ({ d with media := Sql.insertOnConflict MediaRow.id mediaSet d.media (mediaValues m) }, none)

/-- The function `DeleteMedia`. -/
def DeleteMedia (d : DB) (id : String) (fault : Option String) : DB × Option StoreErr :=
  match fault with
  | some e => (d, some (.wrapped "delete media" e))
  | none =>
    let n := Sql.rowsAffected MediaRow.id d.media id
    let d' := { d with media := Sql.deleteWhere MediaRow.id d.media id }
    if n = 0 then (d', some .errNoRows) else (d', none)

/-! ## storage/sqlite.go: player logs -/

/-- The call `Scan(&l.ID, &entries, &l.UpdatedAt)` followed by `l.Entries = []byte(entries)`. -/
def scanPlayerLog (r : PlayerLogsRow) : PlayerLog :=
  { ID := r.id, Entries := RawMessage.ofGoString r.entries, UpdatedAt := r.updated_at }

/-- The values `l.ID, entries, l.UpdatedAt` bound to the INSERT of `UpsertPlayerLog`,
with `entries := string(l.Entries)`. -/
def playerLogValues (l : PlayerLog) : PlayerLogsRow :=
  { id := l.ID, entries := l.Entries.toGoString, updated_at := l.UpdatedAt }

/-- The clause `DO UPDATE SET entries=excluded.entries, updated_at=excluded.updated_at`. -/
def playerLogSet (old excluded : PlayerLogsRow) : PlayerLogsRow :=
  { old with entries := excluded.entries, updated_at := excluded.updated_at }

/-- The function `GetPlayerLog`: `(nil, nil)` is `ok none`. -/
def GetPlayerLog (d : DB) (id : String) (fault : Option String) :
    Except StoreErr (Option PlayerLog) :=
  match fault with
  | some e => .error (.wrapped ("query player_log " ++ id) e)
  | none =>
    match Sql.queryRow PlayerLogsRow.id d.player_logs id with
    | none => .ok none
    | some r => .ok (some (scanPlayerLog r))

/-- The function `UpsertPlayerLog`. -/
def UpsertPlayerLog (d : DB) (l : PlayerLog) (fault : Option String) : DB × Option StoreErr :=
  match fault with
  | some e => (d, some (.wrapped "upsert player_log" e))
  | none =>
    ({ d with player_logs := Sql.insertOnConflict PlayerLogsRow.id playerLogSet d.player_logs (playerLogValues l) }, none)

/-! ## storage/sqlite.go: settings -/

/-- The call `Scan(&s.Key, &s.Value)`. -/
def scanSetting (r : SettingsRow) : Setting :=
  { Key := r.key, Value := r.value }

/-- The values `s.Key, s.Value` bound to the INSERT of `UpsertSetting`. -/
def settingValues (s : Setting) : SettingsRow :=
  { key := s.Key, value := s.Value }

/-- The clause `DO UPDATE SET value=excluded.value`. -/
def settingSet (old excluded : SettingsRow) : SettingsRow :=
  { old with value := excluded.value }

/-- The function `GetSetting`: `(nil, nil)` is `ok none`. -/
def GetSetting (d : DB) (key : String) (fault : Option String) :
    Except StoreErr (Option Setting) :=
  match fault with
  | some e => .error (.wrapped ("query setting " ++ key) e)
  | none =>
    match Sql.queryRow SettingsRow.key d.settings key with
    | none => .ok none
    | some r => .ok (some (scanSetting r))

/-- The function `UpsertSetting`. -/
def UpsertSetting (d : DB) (s : Setting) (fault : Option String) : DB × Option StoreErr :=
  match fault with
  | some e => (d, some (.wrapped "upsert setting" e))
  | none =>
    ({ d with settings := Sql.insertOnConflict SettingsRow.key settingSet d.settings (settingValues s) }, none)

/-! ## handlers: responses and environment -/

/-- What a handler writes as response body: nothing, the plain text of
`http.Error`, or the value that `json.NewEncoder(w).Encode` writes as JSON. -/
inductive Body where
  | empty
  | text (s : String)
  | player (p : Player)
  | players (ps : List Player)
  | weekPlan (p : WeekPlan)
  | weekPlans (ps : List WeekPlan)
  | media (m : Media)
  | mediaList (ms : List Media)
  | playerLog (l : PlayerLog)
  | setting (s : Setting)
  deriving DecidableEq, Repr

/-- The HTTP response a handler produces. -/
structure Response where
  status : Nat
  contentType : Option String
  body : Body
  deriving DecidableEq, Repr

/-- The call `http.Error(w, msg, code)`. -/
def httpError (msg : String) (code : Nat) : Response :=
  { status := code, contentType := some "text/plain; charset=utf-8", body := .text (msg ++ "\n") }

/-- The sequence `w.Header().Set("Content-Type", "application/json")`, optional
`w.WriteHeader(code)`, `json.NewEncoder(w).Encode(v)`. -/
def writeJSON (code : Nat) (v : Body) : Response :=
  { status := code, contentType := some "application/json", body := v }

/-- The call `w.WriteHeader(http.StatusNoContent)` with nothing written. -/
def noContent : Response :=
  { status := 204, contentType := none, body := .empty }

/-! ## encoding/json: the validity check of the encoder

`json.Encoder` accepts the bytes of a non-nil `json.RawMessage` only when they are one
JSON text; the check is the byte scanner of `encoding/json` (scanner.go), run over
the bytes and closed by `eof`. -/

/-- The constants `parseObjectKey`, `parseObjectValue`, `parseArrayValue`. -/
inductive ParseState where
  | objectKey
  | objectValue
  | arrayValue
  deriving DecidableEq, Repr

/-- The step functions of the scanner (`stateBeginValue`, `stateInString`, ...). -/
inductive ScanStep where
  | beginValueOrEmpty
  | beginValue
  | beginStringOrEmpty
  | beginString
  | endValue
  | endTop
  | inString
  | inStringEsc
  | inStringEscU
  | inStringEscU1
  | inStringEscU12
  | inStringEscU123
  | neg
  | one
  | zero
  | dot
  | dot0
  | exp
  | expSign
  | exp0
  | litT
  | litTr
  | litTru
  | litF
  | litFa
  | litFal
  | litFals
  | litN
  | litNu
  | litNul
  deriving DecidableEq, Repr

/-- The scanner of `encoding/json`: the step function, the stack `parseState` (top
first) and the flag `endTop`.  A scanner in error is `none` in what follows. -/
structure Scanner where
  step : ScanStep
  parseState : List ParseState
  endTop : Bool
  deriving DecidableEq, Repr

/-- The constant `maxNestingDepth`. -/
def maxNestingDepth : Nat := 10000

/-- The function `isSpace` of the scanner. -/
def isSpace (c : Char) : Bool :=
  c == ' ' || c == '\t' || c == '\r' || c == '\n'

/-- The test `'0' <= c && c <= '9'`. -/
def isDigit (c : Char) : Bool :=
  '0' ≤ c && c ≤ '9'

/-- The test for a hexadecimal digit in `stateInStringEscU` and its successors. -/
def isHex (c : Char) : Bool :=
  isDigit c || ('a' ≤ c && c ≤ 'f') || ('A' ≤ c && c ≤ 'F')

/-- The function `stateEndTop`: only space may follow the top-level value. -/
def stateEndTop (s : Scanner) (c : Char) : Option Scanner :=
  if isSpace c then some s else none

/-- The function `popParseState`. -/
def popParseState (s : Scanner) : Scanner :=
  let rest := s.parseState.tail
  if rest.isEmpty then { step := .endTop, parseState := rest, endTop := true }
  else { s with step := .endValue, parseState := rest }

/-- The function `pushParseState`, entered with the next step function already set. -/
def pushParseState (s : Scanner) (step : ScanStep) (p : ParseState) : Option Scanner :=
  if s.parseState.length + 1 ≤ maxNestingDepth then
    some { s with step := step, parseState := p :: s.parseState }
  else none

/-- The function `stateEndValue`. -/
def stateEndValue (s : Scanner) (c : Char) : Option Scanner :=
  match s.parseState with
  | [] => stateEndTop { s with step := .endTop, endTop := true } c
  | ps :: rest =>
    if isSpace c then some { s with step := .endValue }
    else
      match ps with
      | .objectKey =>
        if c = ':' then some { s with step := .beginValue, parseState := .objectValue :: rest }
        else none
      | .objectValue =>
        if c = ',' then some { s with step := .beginString, parseState := .objectKey :: rest }
        else if c = '}' then some (popParseState s)
        else none
      | .arrayValue =>
        if c = ',' then some { s with step := .beginValue }
        else if c = ']' then some (popParseState s)
        else none

/-- The function `stateBeginValue`. -/
def stateBeginValue (s : Scanner) (c : Char) : Option Scanner :=
  if isSpace c then some s
  else if c = '{' then pushParseState s .beginStringOrEmpty .objectKey
  else if c = '[' then pushParseState s .beginValueOrEmpty .arrayValue
  else if c = '"' then some { s with step := .inString }
  else if c = '-' then some { s with step := .neg }
  else if c = '0' then some { s with step := .zero }
  else if c = 't' then some { s with step := .litT }
  else if c = 'f' then some { s with step := .litF }
  else if c = 'n' then some { s with step := .litN }
  else if '1' ≤ c && c ≤ '9' then some { s with step := .one }
  else none

/-- The function `stateBeginString`. -/
def stateBeginString (s : Scanner) (c : Char) : Option Scanner :=
  if isSpace c then some s
  else if c = '"' then some { s with step := .inString }
  else none

/-- The function `state0`: after a leading `0` of a number. -/
def state0 (s : Scanner) (c : Char) : Option Scanner :=
  if c = '.' then some { s with step := .dot }
  else if c = 'e' || c = 'E' then some { s with step := .exp }
  else stateEndValue s c

/-- The function `stateESign`: after `e` and its sign. -/
def stateESign (s : Scanner) (c : Char) : Option Scanner :=
  if isDigit c then some { s with step := .exp0 } else none

/-- One byte through the scanner: `s.step(s, c)`. -/
def Scanner.feed (s : Scanner) (c : Char) : Option Scanner :=
  match s.step with
  | .beginValueOrEmpty =>
    if isSpace c then some s
    else if c = ']' then stateEndValue s c
    else stateBeginValue s c
  | .beginValue => stateBeginValue s c
  | .beginStringOrEmpty =>
    if isSpace c then some s
    else if c = '}' then
      stateEndValue { s with parseState := .objectValue :: s.parseState.tail } c
    else stateBeginString s c
  | .beginString => stateBeginString s c
  | .endValue => stateEndValue s c
  | .endTop => stateEndTop s c
  | .inString =>
    if c = '"' then some { s with step := .endValue }
    else if c = '\\' then some { s with step := .inStringEsc }
    else if c.toNat < 0x20 then none
    else some s
  | .inStringEsc =>
    if c = 'b' || c = 'f' || c = 'n' || c = 'r' || c = 't' || c = '\\' || c = '/' || c = '"'
    then some { s with step := .inString }
    else if c = 'u' then some { s with step := .inStringEscU }
    else none
  | .inStringEscU => if isHex c then some { s with step := .inStringEscU1 } else none
  | .inStringEscU1 => if isHex c then some { s with step := .inStringEscU12 } else none
  | .inStringEscU12 => if isHex c then some { s with step := .inStringEscU123 } else none
  | .inStringEscU123 => if isHex c then some { s with step := .inString } else none
  | .neg =>
    if c = '0' then some { s with step := .zero }
    else if '1' ≤ c && c ≤ '9' then some { s with step := .one }
    else none
  | .one => if isDigit c then some s else state0 s c
  | .zero => state0 s c
  | .dot => if isDigit c then some { s with step := .dot0 } else none
  | .dot0 =>
    if isDigit c then some s
    else if c = 'e' || c = 'E' then some { s with step := .exp }
    else stateEndValue s c
  | .exp =>
    if c = '+' || c = '-' then some { s with step := .expSign } else stateESign s c
  | .expSign => stateESign s c
  | .exp0 => if isDigit c then some s else stateEndValue s c
  | .litT => if c = 'r' then some { s with step := .litTr } else none
  | .litTr => if c = 'u' then some { s with step := .litTru } else none
  | .litTru => if c = 'e' then some { s with step := .endValue } else none
  | .litF => if c = 'a' then some { s with step := .litFa } else none
  | .litFa => if c = 'l' then some { s with step := .litFal } else none
  | .litFal => if c = 's' then some { s with step := .litFals } else none
  | .litFals => if c = 'e' then some { s with step := .endValue } else none
  | .litN => if c = 'u' then some { s with step := .litNu } else none
  | .litNu => if c = 'l' then some { s with step := .litNul } else none
  | .litNul => if c = 'l' then some { s with step := .endValue } else none

/-- The scanner after `reset`. -/
def Scanner.reset : Scanner :=
  { step := .beginValue, parseState := [], endTop := false }

/-- The function `eof`: whether the input read so far is a complete JSON text. -/
def Scanner.eof (s : Scanner) : Bool :=
  if s.endTop then true
  else
    match s.feed ' ' with
    | some s' => s'.endTop
    | none => false

/-- The bytes through the scanner, stopping at the first error. -/
def Scanner.feedAll : Scanner → List Char → Option Scanner
  | s, [] => some s
  | s, c :: cs =>
    match s.feed c with
    | some s' => Scanner.feedAll s' cs
    | none => none

/-- Whether `encoding/json` takes the bytes for one JSON text, as the encoder checks of
what `RawMessage.MarshalJSON` returns. -/
def jsonValid (src : String) : Bool :=
  match Scanner.feedAll Scanner.reset src.toList with
  | some s => s.eof
  | none => false

/-- What `json.NewEncoder(w).Encode(plan)` writes for a week plan scanned from a row:
the plan, or nothing when its `Days`, which is never nil after `[]byte(days)`, is not a
JSON text (the empty text of a plan stored without days, for one) and `Encode` fails. -/
def encodeWeekPlan (p : WeekPlan) : Body :=
  if jsonValid p.Days.bytes then .weekPlan p else .empty

/-- What `json.NewEncoder(w).Encode(plans)` writes for the plans scanned from the rows:
the list, or nothing when `Encode` fails at one of them. -/
def encodeWeekPlans (ps : List WeekPlan) : Body :=
  if ps.all (fun p => jsonValid p.Days.bytes) then .weekPlans ps else .empty

/-- What `json.NewEncoder(w).Encode(log)` writes for a player log scanned from a row:
the log, or nothing when its `Entries` is not a JSON text and `Encode` fails. -/
def encodePlayerLog (l : PlayerLog) : Body :=
  if jsonValid l.Entries.bytes then .playerLog l else .empty

/-- What a handler reads from its surroundings. -/
structure Env where
  /-- The value `time.Now().UnixMilli()` read by `generateID`. -/
  unixMilli : Int
  /-- The three bytes `rand.Read` leaves in the buffer of `generateID`. -/
  rand0 : Fin 256
  rand1 : Fin 256
  rand2 : Fin 256
  /-- The value `time.Now().UTC().Format(time.RFC3339)` read by the handler. -/
  now : String
  deriving DecidableEq, Repr

/-- The table `hextable = "0123456789abcdef"` of `encoding/hex`. -/
def hextable : List Char :=
  "0123456789abcdef".toList

/-- The two digits `hextable[v>>4]`, `hextable[v&0x0f]` of one byte. -/
def hexByte (v : Fin 256) : List Char :=
  [hextable.getD (v.val / 16) '0', hextable.getD (v.val % 16) '0']

/-- The function `hex.EncodeToString`. -/
def hexEncodeToString (src : List (Fin 256)) : String :=
  String.mk (src.flatMap hexByte)

/-- The function `generateID`: `fmt.Sprintf("%d%s", time.Now().UnixMilli(),
hex.EncodeToString(b))` for the three random bytes `b`. -/
def generateID (env : Env) : String :=
  toString env.unixMilli ++ hexEncodeToString [env.rand0, env.rand1, env.rand2]

/-! ## handlers/players.go -/

/-- The handler `PlayerHandler.GetAll`. -/
def PlayerHandler.GetAll (d : DB) (fault : Option QueryFault) : DB × Response :=
  match GetAllPlayers d fault with
  | .error _ => (d, httpError "internal server error" 500)
  | .ok players => (d, writeJSON 200 (.players players))

/-- The record `PlayerHandler.Create` builds from the decoded body (lines 40-47):
an empty id is generated, an empty `CreatedAt` is stamped, `UpdatedAt` is stamped. -/
def PlayerHandler.createRecord (p : Player) (env : Env) : Player :=
  let p := if p.ID = "" then { p with ID := generateID env } else p
  let now := env.now
  let p := if p.CreatedAt = "" then { p with CreatedAt := now } else p
  { p with UpdatedAt := now }

/-- The handler `PlayerHandler.Create`; `body` is the outcome of decoding the
request body, `none` when decoding fails. -/
def PlayerHandler.Create (d : DB) (body : Option Player) (env : Env) (fault : Option String) :
    DB × Response :=
  match body with
  | none => (d, httpError "invalid request body" 400)
  | some p =>
    let p := PlayerHandler.createRecord p env
    match UpsertPlayer d p fault with
    | (d', some _) => (d', httpError "internal server error" 500)
    | (d', none) => (d', writeJSON 201 (.player p))

/-- The record `PlayerHandler.Update` builds from the decoded body (lines 74-75). -/
def PlayerHandler.updateRecord (id : String) (p : Player) (env : Env) : Player :=
  { p with ID := id, UpdatedAt := env.now }

/-- The handler `PlayerHandler.Update`; `id` is `r.PathValue("id")`. -/
def PlayerHandler.Update (d : DB) (id : String) (body : Option Player) (env : Env)
    (fault : Option String) : DB × Response :=
  if id = "" then (d, httpError "missing id" 400)
  else
    match body with
    | none => (d, httpError "invalid request body" 400)
    | some p =>
      let p := PlayerHandler.updateRecord id p env
      match UpsertPlayer d p fault with
      | (d', some _) => (d', httpError "internal server error" 500)
      | (d', none) => (d', writeJSON 200 (.player p))

/-- The handler `PlayerHandler.Delete`. -/
def PlayerHandler.Delete (d : DB) (id : String) (fault : Option String) : DB × Response :=
  if id = "" then (d, httpError "missing id" 400)
  else
    match DeletePlayer d id fault with
    | (d', some err) =>
      if err = StoreErr.errNoRows then (d', httpError "not found" 404)
      else (d', httpError "internal server error" 500)
    | (d', none) => (d', noContent)

/-! ## handlers/weekplans.go -/

/-- The handler `WeekPlanHandler.GetAll`.  When `Encode` fails nothing is written and
the response is 200 with an empty body. -/
def WeekPlanHandler.GetAll (d : DB) (fault : Option QueryFault) : DB × Response :=
  match GetAllWeekPlans d fault with
  | .error _ => (d, httpError "internal server error" 500)
  | .ok plans => (d, writeJSON 200 (encodeWeekPlans plans))

/-- The handler `WeekPlanHandler.Get`.  When `Encode` fails nothing is written and the
response is 200 with an empty body. -/
def WeekPlanHandler.Get (d : DB) (id : String) (fault : Option String) : DB × Response :=
  if id = "" then (d, httpError "missing id" 400)
  else
    match GetWeekPlan d id fault with
    | .error _ => (d, httpError "internal server error" 500)
    | .ok none => (d, httpError "not found" 404)
    | .ok (some plan) => (d, writeJSON 200 (encodeWeekPlan plan))

/-- The record `WeekPlanHandler.Update` builds from the decoded body (lines 65-68). -/
def WeekPlanHandler.updateRecord (id : String) (p : WeekPlan) (env : Env) : WeekPlan :=
  let p := { p with ID := id }
  if p.CreatedAt = "" then { p with CreatedAt := env.now } else p

/-- The handler `WeekPlanHandler.Update`.  The `Days` of a decoded body is nil (no
bytes) or a JSON text, both of which `Encode` takes. -/
def WeekPlanHandler.Update (d : DB) (id : String) (body : Option WeekPlan) (env : Env)
    (fault : Option String) : DB × Response :=
  if id = "" then (d, httpError "missing id" 400)
  else
    match body with
    | none => (d, httpError "invalid request body" 400)
    | some p =>
      let p := WeekPlanHandler.updateRecord id p env
      match UpsertWeekPlan d p fault with
      | (d', some _) => (d', httpError "internal server error" 500)
      | (d', none) => (d', writeJSON 200 (.weekPlan p))

/-- The handler `WeekPlanHandler.Delete`. -/
def WeekPlanHandler.Delete (d : DB) (id : String) (fault : Option String) : DB × Response :=
  if id = "" then (d, httpError "missing id" 400)
  else
    match DeleteWeekPlan d id fault with
    | (d', some err) =>
      if err = StoreErr.errNoRows then (d', httpError "not found" 404)
      else (d', httpError "internal server error" 500)
    | (d', none) => (d', noContent)

/-! ## handlers/media.go -/

/-- The handler `MediaHandler.GetAll`. -/
def MediaHandler.GetAll (d : DB) (fault : Option QueryFault) : DB × Response :=
  match GetAllMedia d fault with
  | .error _ => (d, httpError "internal server error" 500)
  | .ok media => (d, writeJSON 200 (.mediaList media))

/-- The record `MediaHandler.Create` builds from the decoded body (lines 37-42). -/
def MediaHandler.createRecord (m : Media) (env : Env) : Media :=
  let m := if m.ID = "" then { m with ID := generateID env } else m
  if m.CreatedAt = "" then { m with CreatedAt := env.now } else m

/-- The handler `MediaHandler.Create`. -/
def MediaHandler.Create (d : DB) (body : Option Media) (env : Env) (fault : Option String) :
    DB × Response :=
  match body with
  | none => (d, httpError "invalid request body" 400)
  | some m =>
    let m := MediaHandler.createRecord m env
    match UpsertMedia d m fault with
    | (d', some _) => (d', httpError "internal server error" 500)
    | (d', none) => (d', writeJSON 201 (.media m))

/-- The handler `MediaHandler.Delete`. -/
def MediaHandler.Delete (d : DB) (id : String) (fault : Option String) : DB × Response :=
  if id = "" then (d, httpError "missing id" 400)
  else
    match DeleteMedia d id fault with
    | (d', some err) =>
      if err = StoreErr.errNoRows then (d', httpError "not found" 404)
      else (d', httpError "internal server error" 500)
    | (d', none) => (d', noContent)

/-! ## handlers/playerlogs.go -/

/-- The handler `PlayerLogHandler.Get`; `key` is `r.PathValue("key")`.  When `Encode`
fails nothing is written and the response is 200 with an empty body. -/
def PlayerLogHandler.Get (d : DB) (key : String) (fault : Option String) : DB × Response :=
  if key = "" then (d, httpError "missing key" 400)
  else
    match GetPlayerLog d key fault with
    | .error _ => (d, httpError "internal server error" 500)
    | .ok none => (d, httpError "not found" 404)
    | .ok (some log) => (d, writeJSON 200 (encodePlayerLog log))

/-- The record `PlayerLogHandler.Update` builds from the decoded body (lines 53-54). -/
def PlayerLogHandler.updateRecord (key : String) (l : PlayerLog) (env : Env) : PlayerLog :=
  { l with ID := key, UpdatedAt := env.now }

/-- The handler `PlayerLogHandler.Update`.  The `Entries` of a decoded body is nil (no
bytes) or a JSON text, both of which `Encode` takes. -/
def PlayerLogHandler.Update (d : DB) (key : String) (body : Option PlayerLog) (env : Env)
    (fault : Option String) : DB × Response :=
  if key = "" then (d, httpError "missing key" 400)
  else
    match body with
    | none => (d, httpError "invalid request body" 400)
    | some l =>
      let l := PlayerLogHandler.updateRecord key l env
      match UpsertPlayerLog d l fault with
      | (d', some _) => (d', httpError "internal server error" 500)
      | (d', none) => (d', writeJSON 200 (.playerLog l))

/-! ## handlers/settings.go -/

/-- The handler `SettingHandler.Get`. -/
def SettingHandler.Get (d : DB) (key : String) (fault : Option String) : DB × Response :=
  if key = "" then (d, httpError "missing key" 400)
  else
    match GetSetting d key fault with
    | .error _ => (d, httpError "internal server error" 500)
    | .ok none => (d, httpError "not found" 404)
    | .ok (some s) => (d, writeJSON 200 (.setting s))

/-- The record `SettingHandler.Update` builds from the decoded body (line 52). -/
def SettingHandler.updateRecord (key : String) (s : Setting) : Setting :=
  { s with Key := key }

/-- The handler `SettingHandler.Update`. -/
def SettingHandler.Update (d : DB) (key : String) (body : Option Setting)
    (fault : Option String) : DB × Response :=
  if key = "" then (d, httpError "missing key" 400)
  else
    match body with
    | none => (d, httpError "invalid request body" 400)
    | some s =>
      let s := SettingHandler.updateRecord key s
      match UpsertSetting d s fault with
      | (d', some _) => (d', httpError "internal server error" 500)
      | (d', none) => (d', writeJSON 200 (.setting s))

/-! ## Sample data -/

/-- A store holding one row in every table. -/
def sampleStore : DB :=
  { players := [⟨"p1", "Alex", none, some "31", "U12", none, "", "2024-01-01T00:00:00Z",
                 "2024-01-01T00:00:00Z"⟩],
    week_plans := [⟨"wp1", "p1", "2024-W10", "[]", 42, "2024-01-01T00:00:00Z"⟩],
    media := [⟨"m1", "ex1", "image", "aGVsbG8=", "pic", "2024-01-01T00:00:00Z"⟩],
    player_logs := [⟨"p1", "[]", "2024-01-01T00:00:00Z"⟩],
    settings := [⟨"theme", "light"⟩] }

/-- A player record with the id of the stored player and a later `CreatedAt`. -/
def samplePlayer : Player :=
  ⟨"p1", "Alex", some "140", none, "U13", none, "fast", "2024-02-02T00:00:00Z",
   "2024-02-02T00:00:00Z"⟩

/-- A week plan record with the id of the stored plan and a later `CreatedAt`. -/
def sampleWeekPlan : WeekPlan :=
  ⟨"wp1", "p1", "2024-W11", ⟨"[1]"⟩, 50, "2024-02-02T00:00:00Z"⟩

/-- A media record with the id of the stored one and a later `CreatedAt`. -/
def sampleMedia : Media :=
  ⟨"m1", "ex2", "video", "aGk=", "clip", "2024-02-02T00:00:00Z"⟩

/-- A player log record with the id of the stored one. -/
def samplePlayerLog : PlayerLog :=
  ⟨"p1", ⟨"[7]"⟩, "2024-02-02T00:00:00Z"⟩

/-- A setting record with the key of the stored one. -/
def sampleSetting : Setting :=
  ⟨"theme", "dark"⟩

/-- A reading of clock and randomness: the millisecond clock shows 1700000000000, the
random bytes are `ab cd ef`, the formatted time is `2024-03-04T10:00:00Z`. -/
def sampleEnv : Env :=
  ⟨1700000000000, 0xab, 0xcd, 0xef, "2024-03-04T10:00:00Z"⟩

/-- A decoded POST body for a player that carries a `createdAt` of its own and no id. -/
def sampleCreateBody : Player :=
  ⟨"", "Alex", none, none, "U12", none, "", "yesterday", ""⟩

/-- The decoded POST body `{"name":"Alex","level":"U12"}`: every other field is the zero
value, the pointer fields are nil. -/
def alexBody : Player :=
  ⟨"", "Alex", none, none, "U12", none, "", "", ""⟩

/-- The decoded PUT body `{"value":"dark"}` of a setting: the key is the zero value. -/
def darkBody : Setting :=
  ⟨"", "dark"⟩

/-- A store whose only player has the id that `generateID` yields under `sampleEnv`. -/
def collidingStore : DB :=
  { DB.empty with
    players := [⟨"1700000000000abcdef", "Bea", none, none, "U14", none, "",
                 "2023-11-14T22:13:20Z", "2023-11-14T22:13:20Z"⟩] }

/-- The decoded body `{"playerId":"p1","week":"2024-W10","days":"[]","totalRPE":rpe}`:
no id, no `createdAt`, and `days` holding the four bytes of the JSON string `"[]"`. -/
def weekPlanBody (rpe : Int) : WeekPlan :=
  ⟨"", "p1", "2024-W10", ⟨"\"[]\""⟩, rpe, ""⟩

/-! ## Theory of the SQL statements -/

namespace Sql

variable {ρ : Type} (key : ρ → String) (set : ρ → ρ → ρ)

theorem hasKey_iff (t : List ρ) (k : String) :
    hasKey key t k = true ↔ ∃ x ∈ t, key x = k := by
  simp [hasKey]

theorem hasKey_eq_false_iff (t : List ρ) (k : String) :
    hasKey key t k = false ↔ ∀ x ∈ t, key x ≠ k := by
  simp [hasKey]

theorem queryRow_eq_none_iff (t : List ρ) (k : String) :
    queryRow key t k = none ↔ hasKey key t k = false := by
  simp [queryRow, hasKey]

theorem queryRow_some (t : List ρ) (k : String) (x : ρ) (h : queryRow key t k = some x) :
    key x = k ∧ x ∈ t := by
  unfold queryRow at h
  exact ⟨by simpa using List.find?_some h, List.mem_of_find?_eq_some h⟩

theorem insertOnConflict_absent (t : List ρ) (r : ρ) (h : hasKey key t (key r) = false) :
    insertOnConflict key set t r = t ++ [r] := by
  simp [insertOnConflict, h]

theorem insertOnConflict_present (t : List ρ) (r : ρ) (h : hasKey key t (key r) = true) :
    insertOnConflict key set t r
      = t.map (fun old => if key old = key r then set old r else old) := by
  simp [insertOnConflict, h]

theorem map_key_update (hset : ∀ o e, key (set o e) = key o) (t : List ρ) (r : ρ) :
    (t.map (fun old => if key old = key r then set old r else old)).map key = t.map key := by
  induction t with
  | nil => rfl
  | cons x xs ih =>
    simp only [List.map_cons, ih]
    by_cases hx : key x = key r <;> simp [hx, hset]

theorem map_key_insertOnConflict (hset : ∀ o e, key (set o e) = key o) (t : List ρ) (r : ρ) :
    (insertOnConflict key set t r).map key
      = if hasKey key t (key r) then t.map key else t.map key ++ [key r] := by
  by_cases h : hasKey key t (key r) = true
  · rw [insertOnConflict_present key set t r h, map_key_update key set hset]; simp [h]
  · have h' : hasKey key t (key r) = false := by simpa using h
    rw [insertOnConflict_absent key set t r h']; simp [h']

theorem hasKey_insertOnConflict_self (hset : ∀ o e, key (set o e) = key o) (t : List ρ) (r : ρ) :
    hasKey key (insertOnConflict key set t r) (key r) = true := by
  have hm := map_key_insertOnConflict key set hset t r
  have : key r ∈ (insertOnConflict key set t r).map key := by
    rw [hm]
    by_cases h : hasKey key t (key r) = true
    · simp only [h, if_true]
      obtain ⟨x, hx, hk⟩ := (hasKey_iff key t (key r)).1 h
      exact List.mem_map.2 ⟨x, hx, hk⟩
    · simp [h]
  obtain ⟨x, hx, hk⟩ := List.mem_map.1 this
  exact (hasKey_iff key _ _).2 ⟨x, hx, hk⟩

theorem uniqueKeys_insertOnConflict (hset : ∀ o e, key (set o e) = key o) (t : List ρ) (r : ρ)
    (hu : UniqueKeys key t) : UniqueKeys key (insertOnConflict key set t r) := by
  unfold UniqueKeys at *
  rw [map_key_insertOnConflict key set hset]
  by_cases h : hasKey key t (key r) = true
  · simpa [h] using hu
  · have h' : hasKey key t (key r) = false := by simpa using h
    simp only [h', Bool.false_eq_true, if_false]
    rw [List.nodup_append]
    refine ⟨hu, List.nodup_singleton _, ?_⟩
    intro a ha hb
    simp only [List.mem_singleton] at hb
    subst hb
    obtain ⟨x, hx, hk⟩ := List.mem_map.1 ha
    exact (hasKey_eq_false_iff key t _).1 h' x hx hk

theorem count_key_insertOnConflict (hset : ∀ o e, key (set o e) = key o) (t : List ρ) (r : ρ)
    (hu : UniqueKeys key t) : ((insertOnConflict key set t r).map key).count (key r) = 1 := by
  have hn := uniqueKeys_insertOnConflict key set hset t r hu
  have hh := hasKey_insertOnConflict_self key set hset t r
  obtain ⟨x, hx, hk⟩ := (hasKey_iff key _ _).1 hh
  exact List.count_eq_one_of_mem hn (List.mem_map.2 ⟨x, hx, hk⟩)

theorem queryRow_update_self (t : List ρ) (r : ρ) (hset : ∀ o e, key (set o e) = key o) :
    queryRow key (t.map (fun old => if key old = key r then set old r else old)) (key r)
      = (queryRow key t (key r)).map (fun old => set old r) := by
  induction t with
  | nil => rfl
  | cons x xs ih =>
    unfold queryRow at *
    by_cases hx : key x = key r
    · simp [List.find?_cons, hx, hset]
    · simp [List.find?_cons, hx, ih]

theorem queryRow_insertOnConflict_self (hset : ∀ o e, key (set o e) = key o) (t : List ρ) (r : ρ) :
    queryRow key (insertOnConflict key set t r) (key r)
      = some (match queryRow key t (key r) with
              | some old => set old r
              | none => r) := by
  by_cases h : hasKey key t (key r) = true
  · rw [insertOnConflict_present key set t r h, queryRow_update_self key set t r hset]
    cases hq : queryRow key t (key r) with
    | none => rw [(queryRow_eq_none_iff key t _).1 hq] at h; cases h
    | some old => rfl
  · have h' : hasKey key t (key r) = false := by simpa using h
    rw [insertOnConflict_absent key set t r h', (queryRow_eq_none_iff key t _).2 h']
    have hn := (hasKey_eq_false_iff key t _).1 h'
    unfold queryRow
    rw [List.find?_append]
    have : List.find? (fun x => key x == key r) t = none := by
      simpa [queryRow] using (queryRow_eq_none_iff key t _).2 h'
    simp [this]

theorem queryRow_update_other (hset : ∀ o e, key (set o e) = key o) (t : List ρ)
    (r : ρ) (k : String) (hk : k ≠ key r) :
    queryRow key (t.map (fun old => if key old = key r then set old r else old)) k
      = queryRow key t k := by
  unfold queryRow
  induction t with
  | nil => rfl
  | cons x xs ih =>
    simp only [List.map_cons, List.find?_cons, ih]
    by_cases hx : key x = key r
    · have h1 : (key x == k) = false := by
        simp only [beq_eq_false_iff_ne, ne_eq]; exact fun h => hk (h ▸ hx)
      have h2 : (key (set x r) == k) = false := by rw [hset]; exact h1
      rw [if_pos hx]
      simp only [h1, h2]
    · simp only [hx, if_false]

theorem queryRow_insertOnConflict_other (hset : ∀ o e, key (set o e) = key o) (t : List ρ)
    (r : ρ) (k : String) (hk : k ≠ key r) :
    queryRow key (insertOnConflict key set t r) k = queryRow key t k := by
  by_cases h : hasKey key t (key r) = true
  · rw [insertOnConflict_present key set t r h]
    exact queryRow_update_other key set hset t r k hk
  · have h' : hasKey key t (key r) = false := by simpa using h
    rw [insertOnConflict_absent key set t r h']
    unfold queryRow
    rw [List.find?_append]
    have h2 : (key r == k) = false := by
      simp only [beq_eq_false_iff_ne, ne_eq]; exact fun h => hk h.symm
    cases List.find? (fun x => key x == k) t <;> simp [List.find?_cons, h2]

theorem update_idem (hset : ∀ o e, key (set o e) = key o)
    (hidem : ∀ o e, set (set o e) e = set o e) (t : List ρ) (r : ρ) :
    (t.map (fun old => if key old = key r then set old r else old)).map
        (fun old => if key old = key r then set old r else old)
      = t.map (fun old => if key old = key r then set old r else old) := by
  rw [List.map_map]
  apply List.map_congr_left
  intro x _
  by_cases hx : key x = key r <;> simp [hx, hset, hidem]

theorem insertOnConflict_idem (hset : ∀ o e, key (set o e) = key o)
    (hidem : ∀ o e, set (set o e) e = set o e) (hself : ∀ e, set e e = e) (t : List ρ) (r : ρ) :
    insertOnConflict key set (insertOnConflict key set t r) r = insertOnConflict key set t r := by
  rw [insertOnConflict_present key set _ r (hasKey_insertOnConflict_self key set hset t r)]
  by_cases h : hasKey key t (key r) = true
  · rw [insertOnConflict_present key set t r h]
    exact update_idem key set hset hidem t r
  · have h' : hasKey key t (key r) = false := by simpa using h
    rw [insertOnConflict_absent key set t r h']
    have hn := (hasKey_eq_false_iff key t _).1 h'
    rw [List.map_append]
    congr 1
    · conv_rhs => rw [← List.map_id t]
      apply List.map_congr_left
      intro x hx
      simp [hn x hx]
    · simp [hself]

theorem rowsAffected_eq_zero_iff (t : List ρ) (k : String) :
    rowsAffected key t k = 0 ↔ hasKey key t k = false := by
  simp [rowsAffected, hasKey, List.filter_eq_nil_iff]

theorem deleteWhere_eq_self (t : List ρ) (k : String) (h : hasKey key t k = false) :
    deleteWhere key t k = t := by
  have hn := (hasKey_eq_false_iff key t k).1 h
  unfold deleteWhere
  rw [List.filter_eq_self]
  intro x hx
  simpa using hn x hx

theorem mem_deleteWhere (t : List ρ) (k : String) (x : ρ) :
    x ∈ deleteWhere key t k ↔ x ∈ t ∧ key x ≠ k := by
  simp [deleteWhere]

theorem hasKey_deleteWhere (t : List ρ) (k : String) :
    hasKey key (deleteWhere key t k) k = false := by
  rw [hasKey_eq_false_iff]
  intro x hx
  exact ((mem_deleteWhere key t k x).1 hx).2

theorem queryRow_deleteWhere_self (t : List ρ) (k : String) :
    queryRow key (deleteWhere key t k) k = none :=
  (queryRow_eq_none_iff key _ _).2 (hasKey_deleteWhere key t k)

theorem queryRow_deleteWhere_other (t : List ρ) (k k' : String) (hk : k' ≠ k) :
    queryRow key (deleteWhere key t k) k' = queryRow key t k' := by
  unfold queryRow deleteWhere
  induction t with
  | nil => rfl
  | cons x xs ih =>
    by_cases hx : key x = k
    · have h1 : (key x == k') = false := by
        simp only [beq_eq_false_iff_ne, ne_eq]; exact fun h => hk (h ▸ hx)
      have h2 : (key x != k) = false := by simp [hx]
      simp only [List.filter_cons, h2, List.find?_cons, h1, ih, Bool.false_eq_true, if_false]
    · have h2 : (key x != k) = true := by simp [hx]
      simp only [List.filter_cons, h2, List.find?_cons, ih, if_true]

theorem uniqueKeys_deleteWhere (t : List ρ) (k : String) (hu : UniqueKeys key t) :
    UniqueKeys key (deleteWhere key t k) := by
  unfold UniqueKeys deleteWhere at *
  exact (List.Nodup.sublist ((List.filter_sublist t).map key) hu)

theorem length_deleteWhere (t : List ρ) (k : String) (hu : UniqueKeys key t)
    (h : hasKey key t k = true) : (deleteWhere key t k).length + 1 = t.length := by
  induction t with
  | nil => simp [hasKey] at h
  | cons x xs ih =>
    have hu' : UniqueKeys key xs := by
      unfold UniqueKeys at *; exact (List.nodup_cons.1 hu).2
    have hx_notin : key x ∉ xs.map key := by
      unfold UniqueKeys at hu; exact (List.nodup_cons.1 hu).1
    by_cases hx : key x = k
    · have hno : hasKey key xs k = false := by
        rw [hasKey_eq_false_iff]
        intro y hy hyk
        exact hx_notin (List.mem_map.2 ⟨y, hy, hyk.trans hx.symm⟩)
      have := deleteWhere_eq_self key xs k hno
      unfold deleteWhere at *
      simp [List.filter_cons, hx, this]
    · have hxs : hasKey key xs k = true := by
        simpa [hasKey, hx] using h
      have := ih hu' hxs
      unfold deleteWhere at *
      simp [List.filter_cons, hx, this]

end Sql
/-! ## The conflict clauses -/

theorem playerSet_id (o e : PlayersRow) : (playerSet o e).id = o.id := rfl
theorem playerSet_idem (o e : PlayersRow) : playerSet (playerSet o e) e = playerSet o e := rfl
theorem playerSet_self (e : PlayersRow) : playerSet e e = e := rfl
theorem playerSet_eq (o e : PlayersRow) (h : o.id = e.id) :
    playerSet o e = { e with created_at := o.created_at } := by
  cases o; cases e; simp_all [playerSet]

theorem weekPlanSet_id (o e : WeekPlansRow) : (weekPlanSet o e).id = o.id := rfl
theorem weekPlanSet_idem (o e : WeekPlansRow) :
    weekPlanSet (weekPlanSet o e) e = weekPlanSet o e := rfl
theorem weekPlanSet_self (e : WeekPlansRow) : weekPlanSet e e = e := rfl
theorem weekPlanSet_eq (o e : WeekPlansRow) (h : o.id = e.id) :
    weekPlanSet o e = { e with created_at := o.created_at } := by
  cases o; cases e; simp_all [weekPlanSet]

theorem mediaSet_id (o e : MediaRow) : (mediaSet o e).id = o.id := rfl
theorem mediaSet_idem (o e : MediaRow) : mediaSet (mediaSet o e) e = mediaSet o e := rfl
theorem mediaSet_self (e : MediaRow) : mediaSet e e = e := rfl
theorem mediaSet_eq (o e : MediaRow) (h : o.id = e.id) :
    mediaSet o e = { e with created_at := o.created_at } := by
  cases o; cases e; simp_all [mediaSet]

theorem playerLogSet_id (o e : PlayerLogsRow) : (playerLogSet o e).id = o.id := rfl
theorem playerLogSet_idem (o e : PlayerLogsRow) :
    playerLogSet (playerLogSet o e) e = playerLogSet o e := rfl
theorem playerLogSet_self (e : PlayerLogsRow) : playerLogSet e e = e := rfl
theorem playerLogSet_eq (o e : PlayerLogsRow) (h : o.id = e.id) : playerLogSet o e = e := by
  cases o; cases e; simp_all [playerLogSet]

theorem settingSet_key (o e : SettingsRow) : (settingSet o e).key = o.key := rfl
theorem settingSet_idem (o e : SettingsRow) :
    settingSet (settingSet o e) e = settingSet o e := rfl
theorem settingSet_self (e : SettingsRow) : settingSet e e = e := rfl
theorem settingSet_eq (o e : SettingsRow) (h : o.key = e.key) : settingSet o e = e := by
  cases o; cases e; simp_all [settingSet]

namespace Sql

variable {ρ : Type} (key : ρ → String) (set : ρ → ρ → ρ)

/-- The row found under the key of `r` after the statement, when a row `old` had that key. -/
theorem queryRow_insertOnConflict_of_some (hset : ∀ o e, key (set o e) = key o) (t : List ρ)
    (r old : ρ) (h : queryRow key t (key r) = some old) :
    queryRow key (insertOnConflict key set t r) (key r) = some (set old r) := by
  rw [queryRow_insertOnConflict_self key set hset, h]

/-- The row found under the key of `r` after the statement, when no row had that key. -/
theorem queryRow_insertOnConflict_of_absent (hset : ∀ o e, key (set o e) = key o) (t : List ρ)
    (r : ρ) (h : hasKey key t (key r) = false) :
    queryRow key (insertOnConflict key set t r) (key r) = some r := by
  rw [queryRow_insertOnConflict_self key set hset, (queryRow_eq_none_iff key t _).2 h]

end Sql

/-! ## Upsert -/

/-- C1 (as stated, refuted): on a store that holds player `p1`, after `UpsertPlayer` of a
record with id `p1` and another `CreatedAt` the stored row with that id is not the
record: its `created_at` is still the one stored before. -/
theorem upsert_keeps_created_at_counterexample :
    sampleStore.WF ∧
    (UpsertPlayer sampleStore samplePlayer none).2 = none ∧
    Sql.queryRow PlayersRow.id (UpsertPlayer sampleStore samplePlayer none).1.players
        samplePlayer.ID
      = some { playerValues samplePlayer with created_at := "2024-01-01T00:00:00Z" } ∧
    Sql.queryRow PlayersRow.id (UpsertPlayer sampleStore samplePlayer none).1.players
        samplePlayer.ID
      ≠ some (playerValues samplePlayer) := by
  decide

/-- C1 (amended): for each of the five entities, when the engine executes the statement
the upsert succeeds; it appends the record as a new row when no row has its key, so
that the stored row equals the record in every column; when a row `old` has the key,
the stored row afterwards equals the record in every column except `created_at`
(Player, WeekPlan, Media), which keeps the value of `old`, and equals the record in
every column for PlayerLog and Setting; rows under other keys are as before. -/
theorem upsert_stored_row (d : DB) :
    (∀ p : Player,
      (UpsertPlayer d p none).2 = none ∧
      (Sql.hasKey PlayersRow.id d.players p.ID = false →
        (UpsertPlayer d p none).1.players = d.players ++ [playerValues p] ∧
        Sql.queryRow PlayersRow.id (UpsertPlayer d p none).1.players p.ID = some (playerValues p)) ∧
      (∀ old, Sql.queryRow PlayersRow.id d.players p.ID = some old →
        Sql.queryRow PlayersRow.id (UpsertPlayer d p none).1.players p.ID
          = some ({ playerValues p with created_at := old.created_at })) ∧
      (∀ k, k ≠ p.ID →
        Sql.queryRow PlayersRow.id (UpsertPlayer d p none).1.players k
          = Sql.queryRow PlayersRow.id d.players k)) ∧
    (∀ p : WeekPlan,
      (UpsertWeekPlan d p none).2 = none ∧
      (Sql.hasKey WeekPlansRow.id d.week_plans p.ID = false →
        (UpsertWeekPlan d p none).1.week_plans = d.week_plans ++ [weekPlanValues p] ∧
        Sql.queryRow WeekPlansRow.id (UpsertWeekPlan d p none).1.week_plans p.ID = some (weekPlanValues p)) ∧
      (∀ old, Sql.queryRow WeekPlansRow.id d.week_plans p.ID = some old →
        Sql.queryRow WeekPlansRow.id (UpsertWeekPlan d p none).1.week_plans p.ID
          = some ({ weekPlanValues p with created_at := old.created_at })) ∧
      (∀ k, k ≠ p.ID →
        Sql.queryRow WeekPlansRow.id (UpsertWeekPlan d p none).1.week_plans k
          = Sql.queryRow WeekPlansRow.id d.week_plans k)) ∧
    (∀ m : Media,
      (UpsertMedia d m none).2 = none ∧
      (Sql.hasKey MediaRow.id d.media m.ID = false →
        (UpsertMedia d m none).1.media = d.media ++ [mediaValues m] ∧
        Sql.queryRow MediaRow.id (UpsertMedia d m none).1.media m.ID = some (mediaValues m)) ∧
      (∀ old, Sql.queryRow MediaRow.id d.media m.ID = some old →
        Sql.queryRow MediaRow.id (UpsertMedia d m none).1.media m.ID
          = some ({ mediaValues m with created_at := old.created_at })) ∧
      (∀ k, k ≠ m.ID →
        Sql.queryRow MediaRow.id (UpsertMedia d m none).1.media k
          = Sql.queryRow MediaRow.id d.media k)) ∧
    (∀ l : PlayerLog,
      (UpsertPlayerLog d l none).2 = none ∧
      (Sql.hasKey PlayerLogsRow.id d.player_logs l.ID = false →
        (UpsertPlayerLog d l none).1.player_logs = d.player_logs ++ [playerLogValues l] ∧
        Sql.queryRow PlayerLogsRow.id (UpsertPlayerLog d l none).1.player_logs l.ID = some (playerLogValues l)) ∧
      (∀ old, Sql.queryRow PlayerLogsRow.id d.player_logs l.ID = some old →
        Sql.queryRow PlayerLogsRow.id (UpsertPlayerLog d l none).1.player_logs l.ID
          = some (playerLogValues l)) ∧
      (∀ k, k ≠ l.ID →
        Sql.queryRow PlayerLogsRow.id (UpsertPlayerLog d l none).1.player_logs k
          = Sql.queryRow PlayerLogsRow.id d.player_logs k)) ∧
    (∀ s : Setting,
      (UpsertSetting d s none).2 = none ∧
      (Sql.hasKey SettingsRow.key d.settings s.Key = false →
        (UpsertSetting d s none).1.settings = d.settings ++ [settingValues s] ∧
        Sql.queryRow SettingsRow.key (UpsertSetting d s none).1.settings s.Key = some (settingValues s)) ∧
      (∀ old, Sql.queryRow SettingsRow.key d.settings s.Key = some old →
        Sql.queryRow SettingsRow.key (UpsertSetting d s none).1.settings s.Key
          = some (settingValues s)) ∧
      (∀ k, k ≠ s.Key →
        Sql.queryRow SettingsRow.key (UpsertSetting d s none).1.settings k
          = Sql.queryRow SettingsRow.key d.settings k)) := by
  refine ⟨?_, ?_, ?_, ?_, ?_⟩
  · intro p
    refine ⟨rfl, ?_, ?_, ?_⟩
    · intro h
      exact ⟨Sql.insertOnConflict_absent PlayersRow.id playerSet d.players (playerValues p) h,
        Sql.queryRow_insertOnConflict_of_absent PlayersRow.id playerSet playerSet_id d.players (playerValues p) h⟩
    · intro old h
      have hk := (Sql.queryRow_some PlayersRow.id d.players _ old h).1
      have := Sql.queryRow_insertOnConflict_of_some PlayersRow.id playerSet playerSet_id d.players
        (playerValues p) old h
      rw [playerSet_eq old (playerValues p) hk] at this
      exact this
    · intro k hk
      exact Sql.queryRow_insertOnConflict_other PlayersRow.id playerSet playerSet_id d.players
        (playerValues p) k hk
  · intro p
    refine ⟨rfl, ?_, ?_, ?_⟩
    · intro h
      exact ⟨Sql.insertOnConflict_absent WeekPlansRow.id weekPlanSet d.week_plans (weekPlanValues p) h,
        Sql.queryRow_insertOnConflict_of_absent WeekPlansRow.id weekPlanSet weekPlanSet_id d.week_plans (weekPlanValues p) h⟩
    · intro old h
      have hk := (Sql.queryRow_some WeekPlansRow.id d.week_plans _ old h).1
      have := Sql.queryRow_insertOnConflict_of_some WeekPlansRow.id weekPlanSet weekPlanSet_id d.week_plans
        (weekPlanValues p) old h
      rw [weekPlanSet_eq old (weekPlanValues p) hk] at this
      exact this
    · intro k hk
      exact Sql.queryRow_insertOnConflict_other WeekPlansRow.id weekPlanSet weekPlanSet_id d.week_plans
        (weekPlanValues p) k hk
  · intro m
    refine ⟨rfl, ?_, ?_, ?_⟩
    · intro h
      exact ⟨Sql.insertOnConflict_absent MediaRow.id mediaSet d.media (mediaValues m) h,
        Sql.queryRow_insertOnConflict_of_absent MediaRow.id mediaSet mediaSet_id d.media (mediaValues m) h⟩
    · intro old h
      have hk := (Sql.queryRow_some MediaRow.id d.media _ old h).1
      have := Sql.queryRow_insertOnConflict_of_some MediaRow.id mediaSet mediaSet_id d.media
        (mediaValues m) old h
      rw [mediaSet_eq old (mediaValues m) hk] at this
      exact this
    · intro k hk
      exact Sql.queryRow_insertOnConflict_other MediaRow.id mediaSet mediaSet_id d.media
        (mediaValues m) k hk
  · intro l
    refine ⟨rfl, ?_, ?_, ?_⟩
    · intro h
      exact ⟨Sql.insertOnConflict_absent PlayerLogsRow.id playerLogSet d.player_logs (playerLogValues l) h,
        Sql.queryRow_insertOnConflict_of_absent PlayerLogsRow.id playerLogSet playerLogSet_id d.player_logs (playerLogValues l) h⟩
    · intro old h
      have hk := (Sql.queryRow_some PlayerLogsRow.id d.player_logs _ old h).1
      have := Sql.queryRow_insertOnConflict_of_some PlayerLogsRow.id playerLogSet playerLogSet_id d.player_logs
        (playerLogValues l) old h
      rw [playerLogSet_eq old (playerLogValues l) hk] at this
      exact this
    · intro k hk
      exact Sql.queryRow_insertOnConflict_other PlayerLogsRow.id playerLogSet playerLogSet_id d.player_logs
        (playerLogValues l) k hk
  · intro s
    refine ⟨rfl, ?_, ?_, ?_⟩
    · intro h
      exact ⟨Sql.insertOnConflict_absent SettingsRow.key settingSet d.settings (settingValues s) h,
        Sql.queryRow_insertOnConflict_of_absent SettingsRow.key settingSet settingSet_key d.settings (settingValues s) h⟩
    · intro old h
      have hk := (Sql.queryRow_some SettingsRow.key d.settings _ old h).1
      have := Sql.queryRow_insertOnConflict_of_some SettingsRow.key settingSet settingSet_key d.settings
        (settingValues s) old h
      rw [settingSet_eq old (settingValues s) hk] at this
      exact this
    · intro k hk
      exact Sql.queryRow_insertOnConflict_other SettingsRow.key settingSet settingSet_key d.settings
        (settingValues s) k hk

/-- Witness for C1: the stored player `p1` is replaced except for
`created_at`, and a setting under a new key is appended. -/
theorem upsert_stored_row_witness :
    Sql.queryRow PlayersRow.id sampleStore.players samplePlayer.ID
      = some ⟨"p1", "Alex", none, some "31", "U12", none, "", "2024-01-01T00:00:00Z",
              "2024-01-01T00:00:00Z"⟩ ∧
    Sql.queryRow PlayersRow.id (UpsertPlayer sampleStore samplePlayer none).1.players
        samplePlayer.ID
      = some ⟨"p1", "Alex", some "140", none, "U13", none, "fast", "2024-01-01T00:00:00Z",
              "2024-02-02T00:00:00Z"⟩ ∧
    Sql.hasKey SettingsRow.key sampleStore.settings "lang" = false ∧
    (UpsertSetting sampleStore ⟨"lang", "de"⟩ none).1.settings
      = sampleStore.settings ++ [⟨"lang", "de"⟩] :=
  ⟨by decide,
   ((upsert_stored_row sampleStore).1 samplePlayer).2.2.1
     ⟨"p1", "Alex", none, some "31", "U12", none, "", "2024-01-01T00:00:00Z",
      "2024-01-01T00:00:00Z"⟩ (by decide),
   by decide,
   (((upsert_stored_row sampleStore).2.2.2.2 ⟨"lang", "de"⟩).2.1 (by decide)).1⟩

/-! ## Scanning what was bound -/

theorem scanPlayer_playerValues (p : Player) : scanPlayer (playerValues p) = p := rfl
theorem scanWeekPlan_weekPlanValues (p : WeekPlan) : scanWeekPlan (weekPlanValues p) = p := rfl
theorem scanMedia_mediaValues (m : Media) : scanMedia (mediaValues m) = m := rfl
theorem scanPlayerLog_playerLogValues (l : PlayerLog) :
    scanPlayerLog (playerLogValues l) = l := rfl
theorem scanSetting_settingValues (s : Setting) : scanSetting (settingValues s) = s := rfl

theorem upsertPlayer_ok (d : DB) (p : Player) (fault : Option String)
    (h : (UpsertPlayer d p fault).2 = none) : fault = none := by
  cases fault with
  | none => rfl
  | some e => simp [UpsertPlayer] at h

theorem upsertWeekPlan_ok (d : DB) (p : WeekPlan) (fault : Option String)
    (h : (UpsertWeekPlan d p fault).2 = none) : fault = none := by
  cases fault with
  | none => rfl
  | some e => simp [UpsertWeekPlan] at h

theorem upsertMedia_ok (d : DB) (m : Media) (fault : Option String)
    (h : (UpsertMedia d m fault).2 = none) : fault = none := by
  cases fault with
  | none => rfl
  | some e => simp [UpsertMedia] at h

/-- A successful `GetAllPlayers` returns the scanned rows in sorted order. -/
theorem getAllPlayers_ok (d : DB) (qf : Option QueryFault) (l : List Player)
    (hne : d.players ≠ []) (h : GetAllPlayers d qf = .ok l) :
    l = (List.insertionSort (fun a b : PlayersRow => a.name ≤ b.name) d.players).map
          scanPlayer := by
  have hlen := List.length_insertionSort (fun a b : PlayersRow => a.name ≤ b.name) d.players
  have hne' : (List.insertionSort (fun a b : PlayersRow => a.name ≤ b.name) d.players).isEmpty
      = false := by
    cases hs : List.insertionSort (fun a b : PlayersRow => a.name ≤ b.name) d.players with
    | nil => rw [hs] at hlen; exact absurd (List.length_eq_zero.1 hlen.symm) hne
    | cons _ _ => rfl
  unfold GetAllPlayers at h
  cases qf with
  | none => simpa using h.symm
  | some f =>
    cases f with
    | query e => simp at h
    | scan e => simp only [hne', Bool.false_eq_true, if_false, reduceCtorEq] at h
    | rows e => simp at h

/-- A successful `GetAllWeekPlans` returns the scanned rows in sorted order. -/
theorem getAllWeekPlans_ok (d : DB) (qf : Option QueryFault) (l : List WeekPlan)
    (hne : d.week_plans ≠ []) (h : GetAllWeekPlans d qf = .ok l) :
    l = (List.insertionSort (fun a b : WeekPlansRow => b.created_at ≤ a.created_at)
          d.week_plans).map scanWeekPlan := by
  have hlen := List.length_insertionSort
    (fun a b : WeekPlansRow => b.created_at ≤ a.created_at) d.week_plans
  have hne' : (List.insertionSort (fun a b : WeekPlansRow => b.created_at ≤ a.created_at)
      d.week_plans).isEmpty = false := by
    cases hs : List.insertionSort (fun a b : WeekPlansRow => b.created_at ≤ a.created_at)
        d.week_plans with
    | nil => rw [hs] at hlen; exact absurd (List.length_eq_zero.1 hlen.symm) hne
    | cons _ _ => rfl
  unfold GetAllWeekPlans at h
  cases qf with
  | none => simpa using h.symm
  | some f =>
    cases f with
    | query e => simp at h
    | scan e => simp only [hne', Bool.false_eq_true, if_false, reduceCtorEq] at h
    | rows e => simp at h

/-- A successful `GetAllMedia` returns the scanned rows in sorted order. -/
theorem getAllMedia_ok (d : DB) (qf : Option QueryFault) (l : List Media)
    (hne : d.media ≠ []) (h : GetAllMedia d qf = .ok l) :
    l = (List.insertionSort (fun a b : MediaRow => b.created_at ≤ a.created_at)
          d.media).map scanMedia := by
  have hlen := List.length_insertionSort
    (fun a b : MediaRow => b.created_at ≤ a.created_at) d.media
  have hne' : (List.insertionSort (fun a b : MediaRow => b.created_at ≤ a.created_at)
      d.media).isEmpty = false := by
    cases hs : List.insertionSort (fun a b : MediaRow => b.created_at ≤ a.created_at)
        d.media with
    | nil => rw [hs] at hlen; exact absurd (List.length_eq_zero.1 hlen.symm) hne
    | cons _ _ => rfl
  unfold GetAllMedia at h
  cases qf with
  | none => simpa using h.symm
  | some f =>
    cases f with
    | query e => simp at h
    | scan e => simp only [hne', Bool.false_eq_true, if_false, reduceCtorEq] at h
    | rows e => simp at h

/-- The record an upsert leaves is listed by every successful `GetAllPlayers`. -/
theorem mem_GetAllPlayers_upsert (d : DB) (p : Player) (qf : Option QueryFault) (l : List Player)
    (h : GetAllPlayers (UpsertPlayer d p none).1 qf = .ok l) :
    (match Sql.queryRow PlayersRow.id d.players p.ID with
     | some old => { p with CreatedAt := old.created_at }
     | none => p) ∈ l := by
  have hrow : ∀ row, Sql.queryRow PlayersRow.id (UpsertPlayer d p none).1.players p.ID = some row →
      scanPlayer row ∈ l := by
    intro row hr
    have hmem := (Sql.queryRow_some _ _ _ _ hr).2
    rw [getAllPlayers_ok _ qf l (List.ne_nil_of_mem hmem) h]
    exact List.mem_map_of_mem _ ((List.mem_insertionSort _).2 hmem)
  cases hq : Sql.queryRow PlayersRow.id d.players p.ID with
  | none =>
    exact hrow _ (Sql.queryRow_insertOnConflict_of_absent PlayersRow.id playerSet playerSet_id d.players
      (playerValues p) ((Sql.queryRow_eq_none_iff _ _ _).1 hq))
  | some old =>
    have hmem := hrow _ (Sql.queryRow_insertOnConflict_of_some PlayersRow.id playerSet playerSet_id
      d.players (playerValues p) old hq)
    have hk : old.id = p.ID := (Sql.queryRow_some _ _ _ _ hq).1
    have he : scanPlayer (playerSet old (playerValues p)) = { p with CreatedAt := old.created_at } := by
      cases p; cases old
      simp_all [scanPlayer, playerSet, playerValues, RawMessage.ofGoString, RawMessage.toGoString]
    rw [he] at hmem
    exact hmem

/-- The record an upsert leaves is listed by every successful `GetAllWeekPlans`. -/
theorem mem_GetAllWeekPlans_upsert (d : DB) (p : WeekPlan) (qf : Option QueryFault) (l : List WeekPlan)
    (h : GetAllWeekPlans (UpsertWeekPlan d p none).1 qf = .ok l) :
    (match Sql.queryRow WeekPlansRow.id d.week_plans p.ID with
     | some old => { p with CreatedAt := old.created_at }
     | none => p) ∈ l := by
  have hrow : ∀ row, Sql.queryRow WeekPlansRow.id (UpsertWeekPlan d p none).1.week_plans p.ID = some row →
      scanWeekPlan row ∈ l := by
    intro row hr
    have hmem := (Sql.queryRow_some _ _ _ _ hr).2
    rw [getAllWeekPlans_ok _ qf l (List.ne_nil_of_mem hmem) h]
    exact List.mem_map_of_mem _ ((List.mem_insertionSort _).2 hmem)
  cases hq : Sql.queryRow WeekPlansRow.id d.week_plans p.ID with
  | none =>
    exact hrow _ (Sql.queryRow_insertOnConflict_of_absent WeekPlansRow.id weekPlanSet weekPlanSet_id d.week_plans
      (weekPlanValues p) ((Sql.queryRow_eq_none_iff _ _ _).1 hq))
  | some old =>
    have hmem := hrow _ (Sql.queryRow_insertOnConflict_of_some WeekPlansRow.id weekPlanSet weekPlanSet_id
      d.week_plans (weekPlanValues p) old hq)
    have hk : old.id = p.ID := (Sql.queryRow_some _ _ _ _ hq).1
    have he : scanWeekPlan (weekPlanSet old (weekPlanValues p)) = { p with CreatedAt := old.created_at } := by
      cases p; cases old
      simp_all [scanWeekPlan, weekPlanSet, weekPlanValues, RawMessage.ofGoString, RawMessage.toGoString]
    rw [he] at hmem
    exact hmem

/-- The record an upsert leaves is listed by every successful `GetAllMedia`. -/
theorem mem_GetAllMedia_upsert (d : DB) (m : Media) (qf : Option QueryFault) (l : List Media)
    (h : GetAllMedia (UpsertMedia d m none).1 qf = .ok l) :
    (match Sql.queryRow MediaRow.id d.media m.ID with
     | some old => { m with CreatedAt := old.created_at }
     | none => m) ∈ l := by
  have hrow : ∀ row, Sql.queryRow MediaRow.id (UpsertMedia d m none).1.media m.ID = some row →
      scanMedia row ∈ l := by
    intro row hr
    have hmem := (Sql.queryRow_some _ _ _ _ hr).2
    rw [getAllMedia_ok _ qf l (List.ne_nil_of_mem hmem) h]
    exact List.mem_map_of_mem _ ((List.mem_insertionSort _).2 hmem)
  cases hq : Sql.queryRow MediaRow.id d.media m.ID with
  | none =>
    exact hrow _ (Sql.queryRow_insertOnConflict_of_absent MediaRow.id mediaSet mediaSet_id d.media
      (mediaValues m) ((Sql.queryRow_eq_none_iff _ _ _).1 hq))
  | some old =>
    have hmem := hrow _ (Sql.queryRow_insertOnConflict_of_some MediaRow.id mediaSet mediaSet_id
      d.media (mediaValues m) old hq)
    have hk : old.id = m.ID := (Sql.queryRow_some _ _ _ _ hq).1
    have he : scanMedia (mediaSet old (mediaValues m)) = { m with CreatedAt := old.created_at } := by
      cases m; cases old
      simp_all [scanMedia, mediaSet, mediaValues, RawMessage.ofGoString, RawMessage.toGoString]
    rw [he] at hmem
    exact hmem

/-! ## Round trip -/

/-- C2 (as stated, refuted): on a store that holds week plan `wp1`, after a successful
`UpsertWeekPlan` of a record with id `wp1` and another `CreatedAt`, `GetAllWeekPlans`
returns one plan, which carries the `created_at` stored before, and the record
upserted is not in the list. -/
theorem list_after_upsert_counterexample :
    (UpsertWeekPlan sampleStore sampleWeekPlan none).2 = none ∧
    GetAllWeekPlans (UpsertWeekPlan sampleStore sampleWeekPlan none).1 none
      = .ok [⟨"wp1", "p1", "2024-W11", ⟨"[1]"⟩, 50, "2024-01-01T00:00:00Z"⟩] ∧
    sampleWeekPlan ∉
      [(⟨"wp1", "p1", "2024-W11", ⟨"[1]"⟩, 50, "2024-01-01T00:00:00Z"⟩ : WeekPlan)] := by
  refine ⟨by decide, rfl, by decide⟩


/-- C2 (amended): for Player, WeekPlan and Media, if `upsert(r)` succeeds then `list()`
returns a result when the engine executes the query, and every result `list()` returns
contains a record equal to `r` in every field (the blob `Days` byte for byte), except
that `CreatedAt` is the `created_at` of the row stored under the id of `r` before the
upsert when there was one. -/
theorem list_after_upsert (d : DB) (fault : Option String) :
    (∀ p : Player, (UpsertPlayer d p fault).2 = none →
      (∃ l, GetAllPlayers (UpsertPlayer d p fault).1 none = .ok l) ∧
      ∀ qf l, GetAllPlayers (UpsertPlayer d p fault).1 qf = .ok l →
        (match Sql.queryRow PlayersRow.id d.players p.ID with
         | some old => { p with CreatedAt := old.created_at }
         | none => p) ∈ l) ∧
    (∀ p : WeekPlan, (UpsertWeekPlan d p fault).2 = none →
      (∃ l, GetAllWeekPlans (UpsertWeekPlan d p fault).1 none = .ok l) ∧
      ∀ qf l, GetAllWeekPlans (UpsertWeekPlan d p fault).1 qf = .ok l →
        (match Sql.queryRow WeekPlansRow.id d.week_plans p.ID with
         | some old => { p with CreatedAt := old.created_at }
         | none => p) ∈ l) ∧
    (∀ m : Media, (UpsertMedia d m fault).2 = none →
      (∃ l, GetAllMedia (UpsertMedia d m fault).1 none = .ok l) ∧
      ∀ qf l, GetAllMedia (UpsertMedia d m fault).1 qf = .ok l →
        (match Sql.queryRow MediaRow.id d.media m.ID with
         | some old => { m with CreatedAt := old.created_at }
         | none => m) ∈ l) := by
  refine ⟨?_, ?_, ?_⟩
  · intro p hok
    have hf := upsertPlayer_ok d p fault hok
    subst hf
    exact ⟨⟨_, rfl⟩, fun qf l h => mem_GetAllPlayers_upsert d p qf l h⟩
  · intro p hok
    have hf := upsertWeekPlan_ok d p fault hok
    subst hf
    exact ⟨⟨_, rfl⟩, fun qf l h => mem_GetAllWeekPlans_upsert d p qf l h⟩
  · intro m hok
    have hf := upsertMedia_ok d m fault hok
    subst hf
    exact ⟨⟨_, rfl⟩, fun qf l h => mem_GetAllMedia_upsert d m qf l h⟩

/-- Witness for C2: the week plan `wp1` upserted over the stored one is
listed with the stored `created_at`, and a new media record is listed as it is. -/
theorem list_after_upsert_witness :
    (UpsertWeekPlan sampleStore sampleWeekPlan none).2 = none ∧
    (∀ qf l, GetAllWeekPlans (UpsertWeekPlan sampleStore sampleWeekPlan none).1 qf = .ok l →
      (⟨"wp1", "p1", "2024-W11", ⟨"[1]"⟩, 50, "2024-01-01T00:00:00Z"⟩ : WeekPlan) ∈ l) ∧
    (UpsertMedia sampleStore ⟨"m2", "ex2", "video", "aGk=", "clip", "2024-02-02T00:00:00Z"⟩
      none).2 = none ∧
    (∀ qf l, GetAllMedia (UpsertMedia sampleStore
        ⟨"m2", "ex2", "video", "aGk=", "clip", "2024-02-02T00:00:00Z"⟩ none).1 qf = .ok l →
      (⟨"m2", "ex2", "video", "aGk=", "clip", "2024-02-02T00:00:00Z"⟩ : Media) ∈ l) :=
  ⟨by decide,
   ((list_after_upsert sampleStore none).2.1 sampleWeekPlan (by decide)).2,
   by decide,
   ((list_after_upsert sampleStore none).2.2
     ⟨"m2", "ex2", "video", "aGk=", "clip", "2024-02-02T00:00:00Z"⟩ (by decide)).2⟩

/-! ## Idempotence -/

/-- C3: for each of the five entities, every store `d` and every record `r`, the first
`upsert(r)` succeeds when the engine executes it; a second `upsert(r)` on the store it
leaves succeeds and leaves exactly that store again, and whatever the engine does with
the second statement the store is the one after the first upsert; under the PRIMARY KEY
constraint the table then holds exactly one row with the key of `r`. -/
theorem upsert_idempotent (d : DB) :
    (∀ p : Player,
      (UpsertPlayer d p none).2 = none ∧
      UpsertPlayer (UpsertPlayer d p none).1 p none = ((UpsertPlayer d p none).1, none) ∧
      (∀ fault, (UpsertPlayer (UpsertPlayer d p none).1 p fault).1 = (UpsertPlayer d p none).1) ∧
      (d.WF → (((UpsertPlayer d p none).1.players).map PlayersRow.id).count p.ID = 1)) ∧
    (∀ p : WeekPlan,
      (UpsertWeekPlan d p none).2 = none ∧
      UpsertWeekPlan (UpsertWeekPlan d p none).1 p none = ((UpsertWeekPlan d p none).1, none) ∧
      (∀ fault, (UpsertWeekPlan (UpsertWeekPlan d p none).1 p fault).1 = (UpsertWeekPlan d p none).1) ∧
      (d.WF → (((UpsertWeekPlan d p none).1.week_plans).map WeekPlansRow.id).count p.ID = 1)) ∧
    (∀ m : Media,
      (UpsertMedia d m none).2 = none ∧
      UpsertMedia (UpsertMedia d m none).1 m none = ((UpsertMedia d m none).1, none) ∧
      (∀ fault, (UpsertMedia (UpsertMedia d m none).1 m fault).1 = (UpsertMedia d m none).1) ∧
      (d.WF → (((UpsertMedia d m none).1.media).map MediaRow.id).count m.ID = 1)) ∧
    (∀ l : PlayerLog,
      (UpsertPlayerLog d l none).2 = none ∧
      UpsertPlayerLog (UpsertPlayerLog d l none).1 l none = ((UpsertPlayerLog d l none).1, none) ∧
      (∀ fault, (UpsertPlayerLog (UpsertPlayerLog d l none).1 l fault).1 = (UpsertPlayerLog d l none).1) ∧
      (d.WF → (((UpsertPlayerLog d l none).1.player_logs).map PlayerLogsRow.id).count l.ID = 1)) ∧
    (∀ s : Setting,
      (UpsertSetting d s none).2 = none ∧
      UpsertSetting (UpsertSetting d s none).1 s none = ((UpsertSetting d s none).1, none) ∧
      (∀ fault, (UpsertSetting (UpsertSetting d s none).1 s fault).1 = (UpsertSetting d s none).1) ∧
      (d.WF → (((UpsertSetting d s none).1.settings).map SettingsRow.key).count s.Key = 1)) := by
  refine ⟨?_, ?_, ?_, ?_, ?_⟩
  · intro p
    have hidem : UpsertPlayer (UpsertPlayer d p none).1 p none = ((UpsertPlayer d p none).1, none) := by
      simp only [UpsertPlayer]
      rw [Sql.insertOnConflict_idem PlayersRow.id playerSet playerSet_id playerSet_idem playerSet_self]
    refine ⟨rfl, hidem, ?_, ?_⟩
    · intro fault
      cases fault with
      | none => rw [hidem]
      | some e => rfl
    · intro hwf
      exact Sql.count_key_insertOnConflict PlayersRow.id playerSet playerSet_id d.players
        (playerValues p) hwf.1
  · intro p
    have hidem : UpsertWeekPlan (UpsertWeekPlan d p none).1 p none = ((UpsertWeekPlan d p none).1, none) := by
      simp only [UpsertWeekPlan]
      rw [Sql.insertOnConflict_idem WeekPlansRow.id weekPlanSet weekPlanSet_id weekPlanSet_idem weekPlanSet_self]
    refine ⟨rfl, hidem, ?_, ?_⟩
    · intro fault
      cases fault with
      | none => rw [hidem]
      | some e => rfl
    · intro hwf
      exact Sql.count_key_insertOnConflict WeekPlansRow.id weekPlanSet weekPlanSet_id d.week_plans
        (weekPlanValues p) hwf.2.1
  · intro m
    have hidem : UpsertMedia (UpsertMedia d m none).1 m none = ((UpsertMedia d m none).1, none) := by
      simp only [UpsertMedia]
      rw [Sql.insertOnConflict_idem MediaRow.id mediaSet mediaSet_id mediaSet_idem mediaSet_self]
    refine ⟨rfl, hidem, ?_, ?_⟩
    · intro fault
      cases fault with
      | none => rw [hidem]
      | some e => rfl
    · intro hwf
      exact Sql.count_key_insertOnConflict MediaRow.id mediaSet mediaSet_id d.media
        (mediaValues m) hwf.2.2.1
  · intro l
    have hidem : UpsertPlayerLog (UpsertPlayerLog d l none).1 l none = ((UpsertPlayerLog d l none).1, none) := by
      simp only [UpsertPlayerLog]
      rw [Sql.insertOnConflict_idem PlayerLogsRow.id playerLogSet playerLogSet_id playerLogSet_idem playerLogSet_self]
    refine ⟨rfl, hidem, ?_, ?_⟩
    · intro fault
      cases fault with
      | none => rw [hidem]
      | some e => rfl
    · intro hwf
      exact Sql.count_key_insertOnConflict PlayerLogsRow.id playerLogSet playerLogSet_id d.player_logs
        (playerLogValues l) hwf.2.2.2.1
  · intro s
    have hidem : UpsertSetting (UpsertSetting d s none).1 s none = ((UpsertSetting d s none).1, none) := by
      simp only [UpsertSetting]
      rw [Sql.insertOnConflict_idem SettingsRow.key settingSet settingSet_key settingSet_idem settingSet_self]
    refine ⟨rfl, hidem, ?_, ?_⟩
    · intro fault
      cases fault with
      | none => rw [hidem]
      | some e => rfl
    · intro hwf
      exact Sql.count_key_insertOnConflict SettingsRow.key settingSet settingSet_key d.settings
        (settingValues s) hwf.2.2.2.2

/-- Witness for C3: the sample store satisfies its key constraints, and
after upserting the sample player twice it holds one row with id `p1`. -/
theorem upsert_idempotent_witness :
    sampleStore.WF ∧
    (((UpsertPlayer sampleStore samplePlayer none).1.players).map PlayersRow.id).count
      samplePlayer.ID = 1 ∧
    UpsertPlayer (UpsertPlayer sampleStore samplePlayer none).1 samplePlayer none
      = ((UpsertPlayer sampleStore samplePlayer none).1, none) :=
  ⟨by decide,
   ((upsert_idempotent sampleStore).1 samplePlayer).2.2.2 (by decide),
   ((upsert_idempotent sampleStore).1 samplePlayer).2.1⟩

/-! ## Delete -/

/-- The store and the error `DeletePlayer` returns when the engine executes the statement. -/
theorem DeletePlayer_none (d : DB) (id : String) :
    DeletePlayer d id none
      = ({ d with players := Sql.deleteWhere PlayersRow.id d.players id },
         if Sql.hasKey PlayersRow.id d.players id then none else some .errNoRows) := by
  unfold DeletePlayer
  by_cases h : Sql.hasKey PlayersRow.id d.players id = true
  · have : ¬ Sql.rowsAffected PlayersRow.id d.players id = 0 := by
      rw [Sql.rowsAffected_eq_zero_iff]; simp [h]
    simp [h, this]
  · have h' : Sql.hasKey PlayersRow.id d.players id = false := by simpa using h
    simp [h', (Sql.rowsAffected_eq_zero_iff PlayersRow.id d.players id).2 h']

/-- The store and the error `DeleteWeekPlan` returns when the engine executes the statement. -/
theorem DeleteWeekPlan_none (d : DB) (id : String) :
    DeleteWeekPlan d id none
      = ({ d with week_plans := Sql.deleteWhere WeekPlansRow.id d.week_plans id },
         if Sql.hasKey WeekPlansRow.id d.week_plans id then none else some .errNoRows) := by
  unfold DeleteWeekPlan
  by_cases h : Sql.hasKey WeekPlansRow.id d.week_plans id = true
  · have : ¬ Sql.rowsAffected WeekPlansRow.id d.week_plans id = 0 := by
      rw [Sql.rowsAffected_eq_zero_iff]; simp [h]
    simp [h, this]
  · have h' : Sql.hasKey WeekPlansRow.id d.week_plans id = false := by simpa using h
    simp [h', (Sql.rowsAffected_eq_zero_iff WeekPlansRow.id d.week_plans id).2 h']

/-- The store and the error `DeleteMedia` returns when the engine executes the statement. -/
theorem DeleteMedia_none (d : DB) (id : String) :
    DeleteMedia d id none
      = ({ d with media := Sql.deleteWhere MediaRow.id d.media id },
         if Sql.hasKey MediaRow.id d.media id then none else some .errNoRows) := by
  unfold DeleteMedia
  by_cases h : Sql.hasKey MediaRow.id d.media id = true
  · have : ¬ Sql.rowsAffected MediaRow.id d.media id = 0 := by
      rw [Sql.rowsAffected_eq_zero_iff]; simp [h]
    simp [h, this]
  · have h' : Sql.hasKey MediaRow.id d.media id = false := by simpa using h
    simp [h', (Sql.rowsAffected_eq_zero_iff MediaRow.id d.media id).2 h']

/-- C4: for Player, WeekPlan and Media, every store `d` and every id, when the engine
executes the statement: delete reports the sentinel `sql.ErrNoRows` exactly when no row
has the id, and then leaves the store as it was; otherwise it reports no error, the
table afterwards holds exactly the rows of other ids, each findable as before, with one
row fewer under the PRIMARY KEY constraint, a following get of the id finds nothing
(`GetPlayer`, `GetWeekPlan`; the row lookup for Media, which has no get), and a second
delete reports `sql.ErrNoRows`.  A statement the engine fails gives a wrapped error,
never the sentinel, and leaves the store as it was. -/
theorem delete_not_found (d : DB) (id : String) :
    (((DeletePlayer d id none).2 = some .errNoRows ↔ Sql.hasKey PlayersRow.id d.players id = false) ∧
     (Sql.hasKey PlayersRow.id d.players id = false → (DeletePlayer d id none).1 = d) ∧
     (Sql.hasKey PlayersRow.id d.players id = true →
        (DeletePlayer d id none).2 = none ∧
        (∀ x, x ∈ (DeletePlayer d id none).1.players ↔ x ∈ d.players ∧ x.id ≠ id) ∧
        (∀ k, k ≠ id →
          Sql.queryRow PlayersRow.id (DeletePlayer d id none).1.players k = Sql.queryRow PlayersRow.id d.players k) ∧
        (d.WF → (DeletePlayer d id none).1.players.length + 1 = d.players.length) ∧
        GetPlayer (DeletePlayer d id none).1 id none = .ok none ∧
        (DeletePlayer (DeletePlayer d id none).1 id none).2 = some .errNoRows) ∧
     (∀ e, (DeletePlayer d id (some e)).1 = d ∧ (DeletePlayer d id (some e)).2 ≠ some .errNoRows ∧
        (DeletePlayer d id (some e)).2 ≠ none)) ∧
    (((DeleteWeekPlan d id none).2 = some .errNoRows ↔ Sql.hasKey WeekPlansRow.id d.week_plans id = false) ∧
     (Sql.hasKey WeekPlansRow.id d.week_plans id = false → (DeleteWeekPlan d id none).1 = d) ∧
     (Sql.hasKey WeekPlansRow.id d.week_plans id = true →
        (DeleteWeekPlan d id none).2 = none ∧
        (∀ x, x ∈ (DeleteWeekPlan d id none).1.week_plans ↔ x ∈ d.week_plans ∧ x.id ≠ id) ∧
        (∀ k, k ≠ id →
          Sql.queryRow WeekPlansRow.id (DeleteWeekPlan d id none).1.week_plans k = Sql.queryRow WeekPlansRow.id d.week_plans k) ∧
        (d.WF → (DeleteWeekPlan d id none).1.week_plans.length + 1 = d.week_plans.length) ∧
        GetWeekPlan (DeleteWeekPlan d id none).1 id none = .ok none ∧
        (DeleteWeekPlan (DeleteWeekPlan d id none).1 id none).2 = some .errNoRows) ∧
     (∀ e, (DeleteWeekPlan d id (some e)).1 = d ∧ (DeleteWeekPlan d id (some e)).2 ≠ some .errNoRows ∧
        (DeleteWeekPlan d id (some e)).2 ≠ none)) ∧
    (((DeleteMedia d id none).2 = some .errNoRows ↔ Sql.hasKey MediaRow.id d.media id = false) ∧
     (Sql.hasKey MediaRow.id d.media id = false → (DeleteMedia d id none).1 = d) ∧
     (Sql.hasKey MediaRow.id d.media id = true →
        (DeleteMedia d id none).2 = none ∧
        (∀ x, x ∈ (DeleteMedia d id none).1.media ↔ x ∈ d.media ∧ x.id ≠ id) ∧
        (∀ k, k ≠ id →
          Sql.queryRow MediaRow.id (DeleteMedia d id none).1.media k = Sql.queryRow MediaRow.id d.media k) ∧
        (d.WF → (DeleteMedia d id none).1.media.length + 1 = d.media.length) ∧
        Sql.queryRow MediaRow.id (DeleteMedia d id none).1.media id = none ∧
        (DeleteMedia (DeleteMedia d id none).1 id none).2 = some .errNoRows) ∧
     (∀ e, (DeleteMedia d id (some e)).1 = d ∧ (DeleteMedia d id (some e)).2 ≠ some .errNoRows ∧
        (DeleteMedia d id (some e)).2 ≠ none)) := by
  refine ⟨?_, ?_, ?_⟩
  · refine ⟨?_, ?_, ?_, ?_⟩
    · rw [DeletePlayer_none]
      cases Sql.hasKey PlayersRow.id d.players id <;> simp
    · intro h
      rw [DeletePlayer_none, Sql.deleteWhere_eq_self PlayersRow.id d.players id h]
    · intro h
      refine ⟨?_, ?_, ?_, ?_, ?_, ?_⟩
      · rw [DeletePlayer_none]; simp [h]
      · intro x
        rw [DeletePlayer_none]
        exact Sql.mem_deleteWhere PlayersRow.id d.players id x
      · intro k hk
        rw [DeletePlayer_none]
        exact Sql.queryRow_deleteWhere_other PlayersRow.id d.players id k hk
      · intro hwf
        rw [DeletePlayer_none]
        exact Sql.length_deleteWhere PlayersRow.id d.players id hwf.1 h
      · simp only [GetPlayer, DeletePlayer_none, Sql.queryRow_deleteWhere_self]
      · rw [DeletePlayer_none, DeletePlayer_none]
        simp [Sql.hasKey_deleteWhere]
    · intro e
      simp [DeletePlayer]
  · refine ⟨?_, ?_, ?_, ?_⟩
    · rw [DeleteWeekPlan_none]
      cases Sql.hasKey WeekPlansRow.id d.week_plans id <;> simp
    · intro h
      rw [DeleteWeekPlan_none, Sql.deleteWhere_eq_self WeekPlansRow.id d.week_plans id h]
    · intro h
      refine ⟨?_, ?_, ?_, ?_, ?_, ?_⟩
      · rw [DeleteWeekPlan_none]; simp [h]
      · intro x
        rw [DeleteWeekPlan_none]
        exact Sql.mem_deleteWhere WeekPlansRow.id d.week_plans id x
      · intro k hk
        rw [DeleteWeekPlan_none]
        exact Sql.queryRow_deleteWhere_other WeekPlansRow.id d.week_plans id k hk
      · intro hwf
        rw [DeleteWeekPlan_none]
        exact Sql.length_deleteWhere WeekPlansRow.id d.week_plans id hwf.2.1 h
      · simp only [GetWeekPlan, DeleteWeekPlan_none, Sql.queryRow_deleteWhere_self]
      · rw [DeleteWeekPlan_none, DeleteWeekPlan_none]
        simp [Sql.hasKey_deleteWhere]
    · intro e
      simp [DeleteWeekPlan]
  · refine ⟨?_, ?_, ?_, ?_⟩
    · rw [DeleteMedia_none]
      cases Sql.hasKey MediaRow.id d.media id <;> simp
    · intro h
      rw [DeleteMedia_none, Sql.deleteWhere_eq_self MediaRow.id d.media id h]
    · intro h
      refine ⟨?_, ?_, ?_, ?_, ?_, ?_⟩
      · rw [DeleteMedia_none]; simp [h]
      · intro x
        rw [DeleteMedia_none]
        exact Sql.mem_deleteWhere MediaRow.id d.media id x
      · intro k hk
        rw [DeleteMedia_none]
        exact Sql.queryRow_deleteWhere_other MediaRow.id d.media id k hk
      · intro hwf
        rw [DeleteMedia_none]
        exact Sql.length_deleteWhere MediaRow.id d.media id hwf.2.2.1 h
      · simp only [DeleteMedia_none, Sql.queryRow_deleteWhere_self]
      · rw [DeleteMedia_none, DeleteMedia_none]
        simp [Sql.hasKey_deleteWhere]
    · intro e
      simp [DeleteMedia]

/-- Witness for C4: deleting the stored player `p1` succeeds and a
following `GetPlayer` finds nothing; deleting the unknown media id `m9` reports
`sql.ErrNoRows` and leaves the store as it was. -/
theorem delete_not_found_witness :
    Sql.hasKey PlayersRow.id sampleStore.players "p1" = true ∧
    sampleStore.WF ∧
    (DeletePlayer sampleStore "p1" none).2 = none ∧
    (DeletePlayer sampleStore "p1" none).1.players.length + 1 = sampleStore.players.length ∧
    GetPlayer (DeletePlayer sampleStore "p1" none).1 "p1" none = .ok none ∧
    Sql.hasKey MediaRow.id sampleStore.media "m9" = false ∧
    (DeleteMedia sampleStore "m9" none).1 = sampleStore :=
  ⟨by decide, by decide,
   ((delete_not_found sampleStore "p1").1.2.2.1 (by decide)).1,
   ((delete_not_found sampleStore "p1").1.2.2.1 (by decide)).2.2.2.1 (by decide),
   ((delete_not_found sampleStore "p1").1.2.2.1 (by decide)).2.2.2.2.1,
   by decide,
   (delete_not_found sampleStore "m9").2.2.2.1 (by decide)⟩

/-! ## Delete handlers -/

/-- C5: for the Delete handlers of Player, WeekPlan and Media with a non-empty path id,
every store and every outcome of the engine: the store afterwards is the one the store
delete leaves; the status is 404 exactly when the store delete reports `sql.ErrNoRows`,
500 when it reports any other error, and 204 with an empty body when it reports none;
and when no row has the id and the engine executes the statement the status is 404. -/
theorem delete_handler_status (d : DB) (id : String) (fault : Option String) (hid : id ≠ "") :
    ((PlayerHandler.Delete d id fault).1 = (DeletePlayer d id fault).1 ∧
     ((PlayerHandler.Delete d id fault).2.status = 404 ↔ (DeletePlayer d id fault).2 = some .errNoRows) ∧
     (∀ err, (DeletePlayer d id fault).2 = some err → err ≠ .errNoRows →
        (PlayerHandler.Delete d id fault).2.status = 500) ∧
     ((DeletePlayer d id fault).2 = none →
        (PlayerHandler.Delete d id fault).2.status = 204 ∧ (PlayerHandler.Delete d id fault).2.body = .empty) ∧
     (Sql.hasKey PlayersRow.id d.players id = false → (PlayerHandler.Delete d id none).2.status = 404)) ∧
    ((WeekPlanHandler.Delete d id fault).1 = (DeleteWeekPlan d id fault).1 ∧
     ((WeekPlanHandler.Delete d id fault).2.status = 404 ↔ (DeleteWeekPlan d id fault).2 = some .errNoRows) ∧
     (∀ err, (DeleteWeekPlan d id fault).2 = some err → err ≠ .errNoRows →
        (WeekPlanHandler.Delete d id fault).2.status = 500) ∧
     ((DeleteWeekPlan d id fault).2 = none →
        (WeekPlanHandler.Delete d id fault).2.status = 204 ∧ (WeekPlanHandler.Delete d id fault).2.body = .empty) ∧
     (Sql.hasKey WeekPlansRow.id d.week_plans id = false → (WeekPlanHandler.Delete d id none).2.status = 404)) ∧
    ((MediaHandler.Delete d id fault).1 = (DeleteMedia d id fault).1 ∧
     ((MediaHandler.Delete d id fault).2.status = 404 ↔ (DeleteMedia d id fault).2 = some .errNoRows) ∧
     (∀ err, (DeleteMedia d id fault).2 = some err → err ≠ .errNoRows →
        (MediaHandler.Delete d id fault).2.status = 500) ∧
     ((DeleteMedia d id fault).2 = none →
        (MediaHandler.Delete d id fault).2.status = 204 ∧ (MediaHandler.Delete d id fault).2.body = .empty) ∧
     (Sql.hasKey MediaRow.id d.media id = false → (MediaHandler.Delete d id none).2.status = 404)) := by
  refine ⟨?_, ?_, ?_⟩
  · have hH : PlayerHandler.Delete d id fault
        = (match DeletePlayer d id fault with
           | (d', some err) =>
             if err = StoreErr.errNoRows then (d', httpError "not found" 404)
             else (d', httpError "internal server error" 500)
           | (d', none) => (d', noContent)) := by
      simp only [PlayerHandler.Delete, hid, if_false]
    have hN : PlayerHandler.Delete d id none
        = (match DeletePlayer d id none with
           | (d', some err) =>
             if err = StoreErr.errNoRows then (d', httpError "not found" 404)
             else (d', httpError "internal server error" 500)
           | (d', none) => (d', noContent)) := by
      simp only [PlayerHandler.Delete, hid, if_false]
    refine ⟨?_, ?_, ?_, ?_, ?_⟩
    · rw [hH]
      rcases DeletePlayer d id fault with ⟨d', _ | err⟩
      · rfl
      · by_cases he : err = StoreErr.errNoRows <;> simp [he]
    · rw [hH]
      rcases DeletePlayer d id fault with ⟨d', _ | err⟩
      · simp [noContent]
      · by_cases he : err = StoreErr.errNoRows <;> simp [he, httpError]
    · intro err herr hne
      rw [hH]
      rcases hd : DeletePlayer d id fault with ⟨d', _ | err'⟩
      · rw [hd] at herr; simp at herr
      · rw [hd] at herr
        have : err' = err := by simpa using herr
        subst this
        simp [hne, httpError]
    · intro hok
      rw [hH]
      rcases hd : DeletePlayer d id fault with ⟨d', _ | err'⟩
      · simp [noContent]
      · rw [hd] at hok; simp at hok
    · intro hno
      rw [hN, DeletePlayer_none]
      simp [hno, httpError]
  · have hH : WeekPlanHandler.Delete d id fault
        = (match DeleteWeekPlan d id fault with
           | (d', some err) =>
             if err = StoreErr.errNoRows then (d', httpError "not found" 404)
             else (d', httpError "internal server error" 500)
           | (d', none) => (d', noContent)) := by
      simp only [WeekPlanHandler.Delete, hid, if_false]
    have hN : WeekPlanHandler.Delete d id none
        = (match DeleteWeekPlan d id none with
           | (d', some err) =>
             if err = StoreErr.errNoRows then (d', httpError "not found" 404)
             else (d', httpError "internal server error" 500)
           | (d', none) => (d', noContent)) := by
      simp only [WeekPlanHandler.Delete, hid, if_false]
    refine ⟨?_, ?_, ?_, ?_, ?_⟩
    · rw [hH]
      rcases DeleteWeekPlan d id fault with ⟨d', _ | err⟩
      · rfl
      · by_cases he : err = StoreErr.errNoRows <;> simp [he]
    · rw [hH]
      rcases DeleteWeekPlan d id fault with ⟨d', _ | err⟩
      · simp [noContent]
      · by_cases he : err = StoreErr.errNoRows <;> simp [he, httpError]
    · intro err herr hne
      rw [hH]
      rcases hd : DeleteWeekPlan d id fault with ⟨d', _ | err'⟩
      · rw [hd] at herr; simp at herr
      · rw [hd] at herr
        have : err' = err := by simpa using herr
        subst this
        simp [hne, httpError]
    · intro hok
      rw [hH]
      rcases hd : DeleteWeekPlan d id fault with ⟨d', _ | err'⟩
      · simp [noContent]
      · rw [hd] at hok; simp at hok
    · intro hno
      rw [hN, DeleteWeekPlan_none]
      simp [hno, httpError]
  · have hH : MediaHandler.Delete d id fault
        = (match DeleteMedia d id fault with
           | (d', some err) =>
             if err = StoreErr.errNoRows then (d', httpError "not found" 404)
             else (d', httpError "internal server error" 500)
           | (d', none) => (d', noContent)) := by
      simp only [MediaHandler.Delete, hid, if_false]
    have hN : MediaHandler.Delete d id none
        = (match DeleteMedia d id none with
           | (d', some err) =>
             if err = StoreErr.errNoRows then (d', httpError "not found" 404)
             else (d', httpError "internal server error" 500)
           | (d', none) => (d', noContent)) := by
      simp only [MediaHandler.Delete, hid, if_false]
    refine ⟨?_, ?_, ?_, ?_, ?_⟩
    · rw [hH]
      rcases DeleteMedia d id fault with ⟨d', _ | err⟩
      · rfl
      · by_cases he : err = StoreErr.errNoRows <;> simp [he]
    · rw [hH]
      rcases DeleteMedia d id fault with ⟨d', _ | err⟩
      · simp [noContent]
      · by_cases he : err = StoreErr.errNoRows <;> simp [he, httpError]
    · intro err herr hne
      rw [hH]
      rcases hd : DeleteMedia d id fault with ⟨d', _ | err'⟩
      · rw [hd] at herr; simp at herr
      · rw [hd] at herr
        have : err' = err := by simpa using herr
        subst this
        simp [hne, httpError]
    · intro hok
      rw [hH]
      rcases hd : DeleteMedia d id fault with ⟨d', _ | err'⟩
      · simp [noContent]
      · rw [hd] at hok; simp at hok
    · intro hno
      rw [hN, DeleteMedia_none]
      simp [hno, httpError]

/-- Witness for C5: on the sample store, which has no media row
`doesnotexist`, the Media Delete handler answers 404 for that id. -/
theorem delete_handler_status_witness :
    "doesnotexist" ≠ "" ∧
    Sql.hasKey MediaRow.id sampleStore.media "doesnotexist" = false ∧
    (MediaHandler.Delete sampleStore "doesnotexist" none).2.status = 404 :=
  ⟨by decide, by decide,
   (delete_handler_status sampleStore "doesnotexist" none (by decide)).2.2.2.2.2.2 (by decide)⟩

namespace Sql

variable {ρ : Type} (key : ρ → String) (set : ρ → ρ → ρ)

/-- The statement leaves the rows of other keys as they were, in their order. -/
theorem filter_ne_insertOnConflict (hset : ∀ o e, key (set o e) = key o) (t : List ρ) (r : ρ) :
    (insertOnConflict key set t r).filter (fun x => key x != key r)
      = t.filter (fun x => key x != key r) := by
  by_cases h : hasKey key t (key r) = true
  · rw [insertOnConflict_present key set t r h]
    clear h
    induction t with
    | nil => rfl
    | cons x xs ih =>
      by_cases hx : key x = key r
      · have h1 : (key x != key r) = false := by simp [hx]
        have h2 : (key (set x r) != key r) = false := by rw [hset]; exact h1
        simp only [List.map_cons, if_pos hx, List.filter_cons, h1, h2, ih,
          Bool.false_eq_true, if_false]
      · have h1 : (key x != key r) = true := by simp [hx]
        simp only [List.map_cons, if_neg hx, List.filter_cons, h1, ih, if_true]
  · have h' : hasKey key t (key r) = false := by simpa using h
    rw [insertOnConflict_absent key set t r h', List.filter_append]
    simp

end Sql

/-! ## Update handlers: the path identifier -/

theorem playerUpdateRecord_key (id : String) (p : Player) (env : Env) :
    (PlayerHandler.updateRecord id p env).ID = id := rfl

theorem weekPlanUpdateRecord_key (id : String) (p : WeekPlan) (env : Env) :
    (WeekPlanHandler.updateRecord id p env).ID = id := by
  unfold WeekPlanHandler.updateRecord
  dsimp only
  split <;> rfl

theorem playerLogUpdateRecord_key (key : String) (l : PlayerLog) (env : Env) :
    (PlayerLogHandler.updateRecord key l env).ID = key := rfl

theorem settingUpdateRecord_key (key : String) (s : Setting) :
    (SettingHandler.updateRecord key s).Key = key := rfl

/-- C6: for the Update handlers of Player, WeekPlan, PlayerLog and Setting, every store,
every non-empty path identifier `id` and every decoded body, whatever id the body
carries: the record the handler upserts has the path identifier as its id; when the
engine executes the statement the handler answers 200 with that record, a row with
the path identifier exists afterwards, the rows of all other ids are exactly the rows
there were before, and in particular the lookup under the id of the body, when it
differs from the path identifier, finds what it found before.  The response has
status 200, is JSON, and its body is the upserted record. -/
theorem update_path_wins (d : DB) (id : String) (env : Env) (hid : id ≠ "") :
    (∀ body : Player,
      (PlayerHandler.updateRecord id body env).ID = id ∧
      (∀ fault, (PlayerHandler.Update d id (some body) env fault).1 = (UpsertPlayer d (PlayerHandler.updateRecord id body env) fault).1) ∧
      PlayerHandler.Update d id (some body) env none = ((UpsertPlayer d (PlayerHandler.updateRecord id body env) none).1, writeJSON 200 (.player (PlayerHandler.updateRecord id body env))) ∧
      Sql.hasKey PlayersRow.id (PlayerHandler.Update d id (some body) env none).1.players id = true ∧
      (PlayerHandler.Update d id (some body) env none).1.players.filter (fun x => x.id != id)
        = d.players.filter (fun x => x.id != id) ∧
      (body.ID ≠ id →
        Sql.queryRow PlayersRow.id (PlayerHandler.Update d id (some body) env none).1.players body.ID
          = Sql.queryRow PlayersRow.id d.players body.ID) ∧
      (PlayerHandler.Update d id (some body) env none).2.status = 200 ∧
      (PlayerHandler.Update d id (some body) env none).2.contentType = some "application/json" ∧
      (PlayerHandler.Update d id (some body) env none).2.body = .player (PlayerHandler.updateRecord id body env)) ∧
    (∀ body : WeekPlan,
      (WeekPlanHandler.updateRecord id body env).ID = id ∧
      (∀ fault, (WeekPlanHandler.Update d id (some body) env fault).1 = (UpsertWeekPlan d (WeekPlanHandler.updateRecord id body env) fault).1) ∧
      WeekPlanHandler.Update d id (some body) env none = ((UpsertWeekPlan d (WeekPlanHandler.updateRecord id body env) none).1, writeJSON 200 (.weekPlan (WeekPlanHandler.updateRecord id body env))) ∧
      Sql.hasKey WeekPlansRow.id (WeekPlanHandler.Update d id (some body) env none).1.week_plans id = true ∧
      (WeekPlanHandler.Update d id (some body) env none).1.week_plans.filter (fun x => x.id != id)
        = d.week_plans.filter (fun x => x.id != id) ∧
      (body.ID ≠ id →
        Sql.queryRow WeekPlansRow.id (WeekPlanHandler.Update d id (some body) env none).1.week_plans body.ID
          = Sql.queryRow WeekPlansRow.id d.week_plans body.ID) ∧
      (WeekPlanHandler.Update d id (some body) env none).2.status = 200 ∧
      (WeekPlanHandler.Update d id (some body) env none).2.contentType = some "application/json" ∧
      (WeekPlanHandler.Update d id (some body) env none).2.body = .weekPlan (WeekPlanHandler.updateRecord id body env)) ∧
    (∀ body : PlayerLog,
      (PlayerLogHandler.updateRecord id body env).ID = id ∧
      (∀ fault, (PlayerLogHandler.Update d id (some body) env fault).1 = (UpsertPlayerLog d (PlayerLogHandler.updateRecord id body env) fault).1) ∧
      PlayerLogHandler.Update d id (some body) env none = ((UpsertPlayerLog d (PlayerLogHandler.updateRecord id body env) none).1, writeJSON 200 (.playerLog (PlayerLogHandler.updateRecord id body env))) ∧
      Sql.hasKey PlayerLogsRow.id (PlayerLogHandler.Update d id (some body) env none).1.player_logs id = true ∧
      (PlayerLogHandler.Update d id (some body) env none).1.player_logs.filter (fun x => x.id != id)
        = d.player_logs.filter (fun x => x.id != id) ∧
      (body.ID ≠ id →
        Sql.queryRow PlayerLogsRow.id (PlayerLogHandler.Update d id (some body) env none).1.player_logs body.ID
          = Sql.queryRow PlayerLogsRow.id d.player_logs body.ID) ∧
      (PlayerLogHandler.Update d id (some body) env none).2.status = 200 ∧
      (PlayerLogHandler.Update d id (some body) env none).2.contentType = some "application/json" ∧
      (PlayerLogHandler.Update d id (some body) env none).2.body = .playerLog (PlayerLogHandler.updateRecord id body env)) ∧
    (∀ body : Setting,
      (SettingHandler.updateRecord id body).Key = id ∧
      (∀ fault, (SettingHandler.Update d id (some body) fault).1 = (UpsertSetting d (SettingHandler.updateRecord id body) fault).1) ∧
      SettingHandler.Update d id (some body) none = ((UpsertSetting d (SettingHandler.updateRecord id body) none).1, writeJSON 200 (.setting (SettingHandler.updateRecord id body))) ∧
      Sql.hasKey SettingsRow.key (SettingHandler.Update d id (some body) none).1.settings id = true ∧
      (SettingHandler.Update d id (some body) none).1.settings.filter (fun x => x.key != id)
        = d.settings.filter (fun x => x.key != id) ∧
      (body.Key ≠ id →
        Sql.queryRow SettingsRow.key (SettingHandler.Update d id (some body) none).1.settings body.Key
          = Sql.queryRow SettingsRow.key d.settings body.Key) ∧
      (SettingHandler.Update d id (some body) none).2.status = 200 ∧
      (SettingHandler.Update d id (some body) none).2.contentType = some "application/json" ∧
      (SettingHandler.Update d id (some body) none).2.body = .setting (SettingHandler.updateRecord id body)) := by
  refine ⟨?_, ?_, ?_, ?_⟩
  · intro body
    have hrec : (PlayerHandler.updateRecord id body env).ID = id := playerUpdateRecord_key id body env
    have hall : ∀ fault, PlayerHandler.Update d id (some body) env fault
        = (match UpsertPlayer d (PlayerHandler.updateRecord id body env) fault with
           | (d', some _) => (d', httpError "internal server error" 500)
           | (d', none) => (d', writeJSON 200 (.player (PlayerHandler.updateRecord id body env)))) := by
      intro fault
      simp only [PlayerHandler.Update, hid, if_false]
    have hnone : PlayerHandler.Update d id (some body) env none = ((UpsertPlayer d (PlayerHandler.updateRecord id body env) none).1, writeJSON 200 (.player (PlayerHandler.updateRecord id body env))) := by
      rw [hall]; rfl
    have hk : (playerValues (PlayerHandler.updateRecord id body env)).id = id := hrec
    refine ⟨hrec, ?_, hnone, ?_, ?_, ?_, by rw [hnone]; rfl, by rw [hnone]; rfl,
      by rw [hnone]; rfl⟩
    · intro fault
      rw [hall]
      rcases UpsertPlayer d (PlayerHandler.updateRecord id body env) fault with ⟨d', _ | err⟩ <;> rfl
    · rw [hnone]
      have h := Sql.hasKey_insertOnConflict_self PlayersRow.id playerSet playerSet_id d.players (playerValues (PlayerHandler.updateRecord id body env))
      rw [hk] at h
      exact h
    · rw [hnone]
      have h := Sql.filter_ne_insertOnConflict PlayersRow.id playerSet playerSet_id d.players (playerValues (PlayerHandler.updateRecord id body env))
      rw [hk] at h
      exact h
    · intro hne
      rw [hnone]
      exact Sql.queryRow_insertOnConflict_other PlayersRow.id playerSet playerSet_id d.players _ _
        (by rw [hk]; exact hne)
  · intro body
    have hrec : (WeekPlanHandler.updateRecord id body env).ID = id := weekPlanUpdateRecord_key id body env
    have hall : ∀ fault, WeekPlanHandler.Update d id (some body) env fault
        = (match UpsertWeekPlan d (WeekPlanHandler.updateRecord id body env) fault with
           | (d', some _) => (d', httpError "internal server error" 500)
           | (d', none) => (d', writeJSON 200 (.weekPlan (WeekPlanHandler.updateRecord id body env)))) := by
      intro fault
      simp only [WeekPlanHandler.Update, hid, if_false]
    have hnone : WeekPlanHandler.Update d id (some body) env none = ((UpsertWeekPlan d (WeekPlanHandler.updateRecord id body env) none).1, writeJSON 200 (.weekPlan (WeekPlanHandler.updateRecord id body env))) := by
      rw [hall]; rfl
    have hk : (weekPlanValues (WeekPlanHandler.updateRecord id body env)).id = id := hrec
    refine ⟨hrec, ?_, hnone, ?_, ?_, ?_, by rw [hnone]; rfl, by rw [hnone]; rfl,
      by rw [hnone]; rfl⟩
    · intro fault
      rw [hall]
      rcases UpsertWeekPlan d (WeekPlanHandler.updateRecord id body env) fault with ⟨d', _ | err⟩ <;> rfl
    · rw [hnone]
      have h := Sql.hasKey_insertOnConflict_self WeekPlansRow.id weekPlanSet weekPlanSet_id d.week_plans (weekPlanValues (WeekPlanHandler.updateRecord id body env))
      rw [hk] at h
      exact h
    · rw [hnone]
      have h := Sql.filter_ne_insertOnConflict WeekPlansRow.id weekPlanSet weekPlanSet_id d.week_plans (weekPlanValues (WeekPlanHandler.updateRecord id body env))
      rw [hk] at h
      exact h
    · intro hne
      rw [hnone]
      exact Sql.queryRow_insertOnConflict_other WeekPlansRow.id weekPlanSet weekPlanSet_id d.week_plans _ _
        (by rw [hk]; exact hne)
  · intro body
    have hrec : (PlayerLogHandler.updateRecord id body env).ID = id := playerLogUpdateRecord_key id body env
    have hall : ∀ fault, PlayerLogHandler.Update d id (some body) env fault
        = (match UpsertPlayerLog d (PlayerLogHandler.updateRecord id body env) fault with
           | (d', some _) => (d', httpError "internal server error" 500)
           | (d', none) => (d', writeJSON 200 (.playerLog (PlayerLogHandler.updateRecord id body env)))) := by
      intro fault
      simp only [PlayerLogHandler.Update, hid, if_false]
    have hnone : PlayerLogHandler.Update d id (some body) env none = ((UpsertPlayerLog d (PlayerLogHandler.updateRecord id body env) none).1, writeJSON 200 (.playerLog (PlayerLogHandler.updateRecord id body env))) := by
      rw [hall]; rfl
    have hk : (playerLogValues (PlayerLogHandler.updateRecord id body env)).id = id := hrec
    refine ⟨hrec, ?_, hnone, ?_, ?_, ?_, by rw [hnone]; rfl, by rw [hnone]; rfl,
      by rw [hnone]; rfl⟩
    · intro fault
      rw [hall]
      rcases UpsertPlayerLog d (PlayerLogHandler.updateRecord id body env) fault with ⟨d', _ | err⟩ <;> rfl
    · rw [hnone]
      have h := Sql.hasKey_insertOnConflict_self PlayerLogsRow.id playerLogSet playerLogSet_id d.player_logs (playerLogValues (PlayerLogHandler.updateRecord id body env))
      rw [hk] at h
      exact h
    · rw [hnone]
      have h := Sql.filter_ne_insertOnConflict PlayerLogsRow.id playerLogSet playerLogSet_id d.player_logs (playerLogValues (PlayerLogHandler.updateRecord id body env))
      rw [hk] at h
      exact h
    · intro hne
      rw [hnone]
      exact Sql.queryRow_insertOnConflict_other PlayerLogsRow.id playerLogSet playerLogSet_id d.player_logs _ _
        (by rw [hk]; exact hne)
  · intro body
    have hrec : (SettingHandler.updateRecord id body).Key = id := settingUpdateRecord_key id body
    have hall : ∀ fault, SettingHandler.Update d id (some body) fault
        = (match UpsertSetting d (SettingHandler.updateRecord id body) fault with
           | (d', some _) => (d', httpError "internal server error" 500)
           | (d', none) => (d', writeJSON 200 (.setting (SettingHandler.updateRecord id body)))) := by
      intro fault
      simp only [SettingHandler.Update, hid, if_false]
    have hnone : SettingHandler.Update d id (some body) none = ((UpsertSetting d (SettingHandler.updateRecord id body) none).1, writeJSON 200 (.setting (SettingHandler.updateRecord id body))) := by
      rw [hall]; rfl
    have hk : (settingValues (SettingHandler.updateRecord id body)).key = id := hrec
    refine ⟨hrec, ?_, hnone, ?_, ?_, ?_, by rw [hnone]; rfl, by rw [hnone]; rfl,
      by rw [hnone]; rfl⟩
    · intro fault
      rw [hall]
      rcases UpsertSetting d (SettingHandler.updateRecord id body) fault with ⟨d', _ | err⟩ <;> rfl
    · rw [hnone]
      have h := Sql.hasKey_insertOnConflict_self SettingsRow.key settingSet settingSet_key d.settings (settingValues (SettingHandler.updateRecord id body))
      rw [hk] at h
      exact h
    · rw [hnone]
      have h := Sql.filter_ne_insertOnConflict SettingsRow.key settingSet settingSet_key d.settings (settingValues (SettingHandler.updateRecord id body))
      rw [hk] at h
      exact h
    · intro hne
      rw [hnone]
      exact Sql.queryRow_insertOnConflict_other SettingsRow.key settingSet settingSet_key d.settings _ _
        (by rw [hk]; exact hne)

/-- Witness for C6: a PUT on path `p2` whose body carries the id `p1` of
the stored player creates the row `p2` and leaves the row `p1` as it was. -/
theorem update_path_wins_witness :
    "p2" ≠ "" ∧ samplePlayer.ID ≠ "p2" ∧
    (PlayerHandler.updateRecord "p2" samplePlayer ⟨0, 0, 0, 0, "2024-03-04T10:00:00Z"⟩).ID
      = "p2" ∧
    Sql.hasKey PlayersRow.id
      (PlayerHandler.Update sampleStore "p2" (some samplePlayer)
        ⟨0, 0, 0, 0, "2024-03-04T10:00:00Z"⟩ none).1.players "p2" = true ∧
    Sql.queryRow PlayersRow.id
      (PlayerHandler.Update sampleStore "p2" (some samplePlayer)
        ⟨0, 0, 0, 0, "2024-03-04T10:00:00Z"⟩ none).1.players samplePlayer.ID
      = Sql.queryRow PlayersRow.id sampleStore.players samplePlayer.ID ∧
    (PlayerHandler.Update sampleStore "p2" (some samplePlayer)
        ⟨0, 0, 0, 0, "2024-03-04T10:00:00Z"⟩ none).2.body
      = .player (PlayerHandler.updateRecord "p2" samplePlayer
          ⟨0, 0, 0, 0, "2024-03-04T10:00:00Z"⟩) :=
  ⟨by decide, by decide,
   ((update_path_wins sampleStore "p2" ⟨0, 0, 0, 0, "2024-03-04T10:00:00Z"⟩ (by decide)).1
     samplePlayer).1,
   ((update_path_wins sampleStore "p2" ⟨0, 0, 0, 0, "2024-03-04T10:00:00Z"⟩ (by decide)).1
     samplePlayer).2.2.2.1,
   ((update_path_wins sampleStore "p2" ⟨0, 0, 0, 0, "2024-03-04T10:00:00Z"⟩ (by decide)).1
     samplePlayer).2.2.2.2.2.1 (by decide),
   ((update_path_wins sampleStore "p2" ⟨0, 0, 0, 0, "2024-03-04T10:00:00Z"⟩ (by decide)).1
     samplePlayer).2.2.2.2.2.2.2.2⟩

/-! ## Timestamps -/

/-- The timestamps of the row `UpsertPlayer` leaves under the id of the record. -/
theorem upsertPlayer_stamps (d : DB) (p : Player) :
    (Sql.queryRow PlayersRow.id (UpsertPlayer d p none).1.players p.ID).map
        (fun r => (r.created_at, r.updated_at))
      = some (((Sql.queryRow PlayersRow.id d.players p.ID).map PlayersRow.created_at).getD
                p.CreatedAt, p.UpdatedAt) := by
  cases hq : Sql.queryRow PlayersRow.id d.players p.ID with
  | none =>
    have h := Sql.queryRow_insertOnConflict_of_absent PlayersRow.id playerSet playerSet_id
      d.players (playerValues p) ((Sql.queryRow_eq_none_iff _ _ _).1 hq)
    simp only [UpsertPlayer]
    rw [show p.ID = (playerValues p).id from rfl, h]
    rfl
  | some old =>
    have h := Sql.queryRow_insertOnConflict_of_some PlayersRow.id playerSet playerSet_id
      d.players (playerValues p) old hq
    simp only [UpsertPlayer]
    rw [show p.ID = (playerValues p).id from rfl, h]
    rfl

/-- The `created_at` of the row `UpsertWeekPlan` leaves under the id of the record. -/
theorem upsertWeekPlan_stamps (d : DB) (p : WeekPlan) :
    (Sql.queryRow WeekPlansRow.id (UpsertWeekPlan d p none).1.week_plans p.ID).map
        WeekPlansRow.created_at
      = some (((Sql.queryRow WeekPlansRow.id d.week_plans p.ID).map
                WeekPlansRow.created_at).getD p.CreatedAt) := by
  cases hq : Sql.queryRow WeekPlansRow.id d.week_plans p.ID with
  | none =>
    have h := Sql.queryRow_insertOnConflict_of_absent WeekPlansRow.id weekPlanSet
      weekPlanSet_id d.week_plans (weekPlanValues p) ((Sql.queryRow_eq_none_iff _ _ _).1 hq)
    simp only [UpsertWeekPlan]
    rw [show p.ID = (weekPlanValues p).id from rfl, h]
    rfl
  | some old =>
    have h := Sql.queryRow_insertOnConflict_of_some WeekPlansRow.id weekPlanSet
      weekPlanSet_id d.week_plans (weekPlanValues p) old hq
    simp only [UpsertWeekPlan]
    rw [show p.ID = (weekPlanValues p).id from rfl, h]
    rfl

/-- The `created_at` of the row `UpsertMedia` leaves under the id of the record. -/
theorem upsertMedia_stamps (d : DB) (m : Media) :
    (Sql.queryRow MediaRow.id (UpsertMedia d m none).1.media m.ID).map MediaRow.created_at
      = some (((Sql.queryRow MediaRow.id d.media m.ID).map MediaRow.created_at).getD
                m.CreatedAt) := by
  cases hq : Sql.queryRow MediaRow.id d.media m.ID with
  | none =>
    have h := Sql.queryRow_insertOnConflict_of_absent MediaRow.id mediaSet mediaSet_id
      d.media (mediaValues m) ((Sql.queryRow_eq_none_iff _ _ _).1 hq)
    simp only [UpsertMedia]
    rw [show m.ID = (mediaValues m).id from rfl, h]
    rfl
  | some old =>
    have h := Sql.queryRow_insertOnConflict_of_some MediaRow.id mediaSet mediaSet_id
      d.media (mediaValues m) old hq
    simp only [UpsertMedia]
    rw [show m.ID = (mediaValues m).id from rfl, h]
    rfl

/-- The `updated_at` of the row `UpsertPlayerLog` leaves under the id of the record. -/
theorem upsertPlayerLog_stamps (d : DB) (l : PlayerLog) :
    (Sql.queryRow PlayerLogsRow.id (UpsertPlayerLog d l none).1.player_logs l.ID).map
        PlayerLogsRow.updated_at
      = some l.UpdatedAt := by
  cases hq : Sql.queryRow PlayerLogsRow.id d.player_logs l.ID with
  | none =>
    have h := Sql.queryRow_insertOnConflict_of_absent PlayerLogsRow.id playerLogSet
      playerLogSet_id d.player_logs (playerLogValues l) ((Sql.queryRow_eq_none_iff _ _ _).1 hq)
    simp only [UpsertPlayerLog]
    rw [show l.ID = (playerLogValues l).id from rfl, h]
    rfl
  | some old =>
    have h := Sql.queryRow_insertOnConflict_of_some PlayerLogsRow.id playerLogSet
      playerLogSet_id d.player_logs (playerLogValues l) old hq
    simp only [UpsertPlayerLog]
    rw [show l.ID = (playerLogValues l).id from rfl, h]
    rfl

theorem playerCreateRecord_createdAt (p : Player) (env : Env) :
    (PlayerHandler.createRecord p env).CreatedAt
      = if p.CreatedAt = "" then env.now else p.CreatedAt := by
  unfold PlayerHandler.createRecord
  by_cases h1 : p.ID = "" <;> by_cases h2 : p.CreatedAt = "" <;> simp [h1, h2]

theorem playerCreateRecord_updatedAt (p : Player) (env : Env) :
    (PlayerHandler.createRecord p env).UpdatedAt = env.now := rfl

theorem weekPlanUpdateRecord_createdAt (id : String) (p : WeekPlan) (env : Env) :
    (WeekPlanHandler.updateRecord id p env).CreatedAt
      = if p.CreatedAt = "" then env.now else p.CreatedAt := by
  unfold WeekPlanHandler.updateRecord
  by_cases h2 : p.CreatedAt = "" <;> simp [h2]

theorem mediaCreateRecord_createdAt (m : Media) (env : Env) :
    (MediaHandler.createRecord m env).CreatedAt
      = if m.CreatedAt = "" then env.now else m.CreatedAt := by
  unfold MediaHandler.createRecord
  by_cases h1 : m.ID = "" <;> by_cases h2 : m.CreatedAt = "" <;> simp [h1, h2]

theorem playerCreate_none (d : DB) (p : Player) (env : Env) :
    PlayerHandler.Create d (some p) env none
      = ((UpsertPlayer d (PlayerHandler.createRecord p env) none).1,
         writeJSON 201 (.player (PlayerHandler.createRecord p env))) := rfl

theorem mediaCreate_none (d : DB) (m : Media) (env : Env) :
    MediaHandler.Create d (some m) env none
      = ((UpsertMedia d (MediaHandler.createRecord m env) none).1,
         writeJSON 201 (.media (MediaHandler.createRecord m env))) := rfl

theorem playerUpdate_none (d : DB) (id : String) (p : Player) (env : Env)
    (hid : id ≠ "") :
    PlayerHandler.Update d id (some p) env none
      = ((UpsertPlayer d (PlayerHandler.updateRecord id p env) none).1,
         writeJSON 200 (.player (PlayerHandler.updateRecord id p env))) := by
  simp only [PlayerHandler.Update, hid, if_false]
  rfl

theorem weekPlanUpdate_none (d : DB) (id : String) (p : WeekPlan) (env : Env)
    (hid : id ≠ "") :
    WeekPlanHandler.Update d id (some p) env none
      = ((UpsertWeekPlan d (WeekPlanHandler.updateRecord id p env) none).1,
         writeJSON 200 (.weekPlan (WeekPlanHandler.updateRecord id p env))) := by
  simp only [WeekPlanHandler.Update, hid, if_false]
  rfl

theorem playerLogUpdate_none (d : DB) (key : String) (l : PlayerLog) (env : Env)
    (hkey : key ≠ "") :
    PlayerLogHandler.Update d key (some l) env none
      = ((UpsertPlayerLog d (PlayerLogHandler.updateRecord key l env) none).1,
         writeJSON 200 (.playerLog (PlayerLogHandler.updateRecord key l env))) := by
  simp only [PlayerLogHandler.Update, hkey, if_false]
  rfl

/-- C7 (as stated, refuted): a POST of a player whose body carries the `createdAt`
value `yesterday`, on the empty store, answers 201 and stores that value as
`created_at`, not the time the layer read. -/
theorem created_at_from_body_counterexample :
    (PlayerHandler.Create DB.empty (some sampleCreateBody) sampleEnv none).2.status = 201 ∧
    (PlayerHandler.Create DB.empty (some sampleCreateBody) sampleEnv none).1.players
      = [⟨"1700000000000abcdef", "Alex", none, none, "U12", none, "", "yesterday",
          "2024-03-04T10:00:00Z"⟩] ∧
    sampleCreateBody.CreatedAt = "yesterday" ∧
    sampleEnv.now ≠ "yesterday" := by
  decide


/-- C7 (amended): with `env.now` the layer's reading
`time.Now().UTC().Format(time.RFC3339)`, for every store and every decoded body:
`updatedAt` of the record stored by Player Create, Player Update and PlayerLog Update
is `env.now`, never the value of the body; `createdAt` of the record that Player
Create, WeekPlan Update and Media Create pass to the store is `env.now` when the body
has an empty `createdAt` and otherwise the `createdAt` of the body as supplied, so it
is not empty when `env.now` is not; and the stored `created_at` is the one of the row
stored before under that id when there was one, and otherwise the `createdAt` passed
to the store. -/
theorem layer_timestamps (d : DB) (env : Env) :
    (∀ body : Player,
      (PlayerHandler.Create d (some body) env none).1
        = (UpsertPlayer d (PlayerHandler.createRecord body env) none).1 ∧
      (PlayerHandler.createRecord body env).UpdatedAt = env.now ∧
      (PlayerHandler.createRecord body env).CreatedAt
        = (if body.CreatedAt = "" then env.now else body.CreatedAt) ∧
      (env.now ≠ "" → (PlayerHandler.createRecord body env).CreatedAt ≠ "") ∧
      (Sql.queryRow PlayersRow.id (PlayerHandler.Create d (some body) env none).1.players
          (PlayerHandler.createRecord body env).ID).map (fun r => (r.created_at, r.updated_at))
        = some (((Sql.queryRow PlayersRow.id d.players
                    (PlayerHandler.createRecord body env).ID).map PlayersRow.created_at).getD
                  (PlayerHandler.createRecord body env).CreatedAt, env.now)) ∧
    (∀ (id : String) (body : Player), id ≠ "" →
      (PlayerHandler.Update d id (some body) env none).1
        = (UpsertPlayer d (PlayerHandler.updateRecord id body env) none).1 ∧
      (PlayerHandler.updateRecord id body env).UpdatedAt = env.now ∧
      (Sql.queryRow PlayersRow.id (PlayerHandler.Update d id (some body) env none).1.players
          id).map PlayersRow.updated_at = some env.now ∧
      (∀ old, Sql.queryRow PlayersRow.id d.players id = some old →
        (Sql.queryRow PlayersRow.id (PlayerHandler.Update d id (some body) env none).1.players
          id).map PlayersRow.created_at = some old.created_at)) ∧
    (∀ (id : String) (body : WeekPlan), id ≠ "" →
      (WeekPlanHandler.Update d id (some body) env none).1
        = (UpsertWeekPlan d (WeekPlanHandler.updateRecord id body env) none).1 ∧
      (WeekPlanHandler.updateRecord id body env).CreatedAt
        = (if body.CreatedAt = "" then env.now else body.CreatedAt) ∧
      (env.now ≠ "" → (WeekPlanHandler.updateRecord id body env).CreatedAt ≠ "") ∧
      (Sql.queryRow WeekPlansRow.id
          (WeekPlanHandler.Update d id (some body) env none).1.week_plans id).map
          WeekPlansRow.created_at
        = some (((Sql.queryRow WeekPlansRow.id d.week_plans id).map
                  WeekPlansRow.created_at).getD
                  (WeekPlanHandler.updateRecord id body env).CreatedAt)) ∧
    (∀ body : Media,
      (MediaHandler.Create d (some body) env none).1
        = (UpsertMedia d (MediaHandler.createRecord body env) none).1 ∧
      (MediaHandler.createRecord body env).CreatedAt
        = (if body.CreatedAt = "" then env.now else body.CreatedAt) ∧
      (env.now ≠ "" → (MediaHandler.createRecord body env).CreatedAt ≠ "") ∧
      (Sql.queryRow MediaRow.id (MediaHandler.Create d (some body) env none).1.media
          (MediaHandler.createRecord body env).ID).map MediaRow.created_at
        = some (((Sql.queryRow MediaRow.id d.media
                    (MediaHandler.createRecord body env).ID).map MediaRow.created_at).getD
                  (MediaHandler.createRecord body env).CreatedAt)) ∧
    (∀ (key : String) (body : PlayerLog), key ≠ "" →
      (PlayerLogHandler.Update d key (some body) env none).1
        = (UpsertPlayerLog d (PlayerLogHandler.updateRecord key body env) none).1 ∧
      (PlayerLogHandler.updateRecord key body env).UpdatedAt = env.now ∧
      (Sql.queryRow PlayerLogsRow.id
          (PlayerLogHandler.Update d key (some body) env none).1.player_logs key).map
          PlayerLogsRow.updated_at = some env.now) := by
  refine ⟨?_, ?_, ?_, ?_, ?_⟩
  · intro body
    refine ⟨rfl, rfl, playerCreateRecord_createdAt body env, ?_, ?_⟩
    · intro hnow
      rw [playerCreateRecord_createdAt]
      by_cases h : body.CreatedAt = "" <;> simp [h, hnow]
    · rw [playerCreate_none]
      exact upsertPlayer_stamps d (PlayerHandler.createRecord body env)
  · intro id body hid
    have hst := upsertPlayer_stamps d (PlayerHandler.updateRecord id body env)
    rw [playerUpdateRecord_key] at hst
    rw [playerUpdate_none d id body env hid]
    refine ⟨rfl, rfl, ?_, ?_⟩
    · have := congrArg (Option.map Prod.snd) hst
      simpa [Option.map_map, Function.comp_def, PlayerHandler.updateRecord] using this
    · intro old hold
      have := congrArg (Option.map Prod.fst) hst
      rw [hold] at this
      simpa [Option.map_map, Function.comp_def] using this
  · intro id body hid
    have hst := upsertWeekPlan_stamps d (WeekPlanHandler.updateRecord id body env)
    rw [weekPlanUpdateRecord_key] at hst
    rw [weekPlanUpdate_none d id body env hid]
    refine ⟨rfl, weekPlanUpdateRecord_createdAt id body env, ?_, hst⟩
    intro hnow
    rw [weekPlanUpdateRecord_createdAt]
    by_cases h : body.CreatedAt = "" <;> simp [h, hnow]
  · intro body
    refine ⟨rfl, mediaCreateRecord_createdAt body env, ?_, ?_⟩
    · intro hnow
      rw [mediaCreateRecord_createdAt]
      by_cases h : body.CreatedAt = "" <;> simp [h, hnow]
    · rw [mediaCreate_none]
      exact upsertMedia_stamps d (MediaHandler.createRecord body env)
  · intro key body hkey
    have hst := upsertPlayerLog_stamps d (PlayerLogHandler.updateRecord key body env)
    rw [playerLogUpdateRecord_key] at hst
    rw [playerLogUpdate_none d key body env hkey]
    exact ⟨rfl, rfl, hst⟩

/-- Witness for C7: a week plan PUT on the new id `wp2` with no
`createdAt` in the body stores the time the layer read, and a player PUT on the stored
id `p1` keeps the stored `created_at`. -/
theorem layer_timestamps_witness :
    "wp2" ≠ "" ∧ sampleEnv.now ≠ "" ∧
    (WeekPlanHandler.updateRecord "wp2" ⟨"", "p1", "2024-W10", ⟨"[]"⟩, 42, ""⟩
      sampleEnv).CreatedAt ≠ "" ∧
    "p1" ≠ "" ∧
    Sql.queryRow PlayersRow.id sampleStore.players "p1"
      = some ⟨"p1", "Alex", none, some "31", "U12", none, "", "2024-01-01T00:00:00Z",
              "2024-01-01T00:00:00Z"⟩ ∧
    (Sql.queryRow PlayersRow.id
        (PlayerHandler.Update sampleStore "p1" (some samplePlayer) sampleEnv none).1.players
        "p1").map PlayersRow.created_at = some "2024-01-01T00:00:00Z" :=
  ⟨by decide, by decide,
   ((layer_timestamps sampleStore sampleEnv).2.2.1 "wp2"
     ⟨"", "p1", "2024-W10", ⟨"[]"⟩, 42, ""⟩ (by decide)).2.2.1 (by decide),
   by decide, by decide,
   ((layer_timestamps sampleStore sampleEnv).2.1 "p1" samplePlayer (by decide)).2.2.2
     ⟨"p1", "Alex", none, some "31", "U12", none, "", "2024-01-01T00:00:00Z",
      "2024-01-01T00:00:00Z"⟩ (by decide)⟩

/-! ## Identifier generation -/

theorem hextable_getD_mem (n : Fin 16) : hextable.getD n.val '0' ∈ "0123456789abcdef".toList := by
  revert n; decide

theorem hexByte_length (v : Fin 256) : (hexByte v).length = 2 := rfl

theorem hexByte_mem (v : Fin 256) (c : Char) (h : c ∈ hexByte v) :
    c ∈ "0123456789abcdef".toList := by
  have h1 : v.val / 16 < 16 := by have := v.isLt; omega
  have h2 : v.val % 16 < 16 := Nat.mod_lt _ (by decide)
  simp only [hexByte, List.mem_cons, List.mem_singleton, List.not_mem_nil, or_false] at h
  rcases h with h | h
  · rw [h]; exact hextable_getD_mem ⟨v.val / 16, h1⟩
  · rw [h]; exact hextable_getD_mem ⟨v.val % 16, h2⟩

/-- The suffix `generateID` appends: six characters, each a lowercase hexadecimal digit. -/
theorem hexEncodeToString_three (a b c : Fin 256) :
    (hexEncodeToString [a, b, c]).length = 6 ∧
    ∀ ch ∈ (hexEncodeToString [a, b, c]).toList, ch ∈ "0123456789abcdef".toList := by
  constructor
  · rfl
  · intro ch hch
    have : ch ∈ hexByte a ++ (hexByte b ++ (hexByte c ++ [])) := hch
    simp only [List.append_nil, List.mem_append] at this
    rcases this with h | h | h
    · exact hexByte_mem a ch h
    · exact hexByte_mem b ch h
    · exact hexByte_mem c ch h

theorem generateID_ne_empty (env : Env) : generateID env ≠ "" := by
  intro h
  have hl := congrArg String.length h
  unfold generateID at hl
  rw [String.length_append, (hexEncodeToString_three env.rand0 env.rand1 env.rand2).1] at hl
  simp at hl

theorem playerCreateRecord_id (p : Player) (env : Env) :
    (PlayerHandler.createRecord p env).ID = if p.ID = "" then generateID env else p.ID := by
  unfold PlayerHandler.createRecord
  by_cases h1 : p.ID = "" <;> by_cases h2 : p.CreatedAt = "" <;> simp [h1, h2]

theorem mediaCreateRecord_id (m : Media) (env : Env) :
    (MediaHandler.createRecord m env).ID = if m.ID = "" then generateID env else m.ID := by
  unfold MediaHandler.createRecord
  by_cases h1 : m.ID = "" <;> by_cases h2 : m.CreatedAt = "" <;> simp [h1, h2]

/-- C8: for the Create handlers of Player and Media, every store, every reading of clock
and randomness and every decoded body, when the engine executes the statement the
handler answers 201 with the record it upserted and a row with the id of that record
is stored; if the id of the body is empty, the id of the record is the decimal
rendering of the Unix time in milliseconds followed by exactly six characters, each
one of `0123456789abcdef`, and is not empty; if the id of the body is not empty, the
id of the record is exactly that id.  The response has status 201, is JSON, and its
body is that record. -/
theorem create_identifier (d : DB) (env : Env) :
    (∀ body : Player,
      PlayerHandler.Create d (some body) env none
        = ((UpsertPlayer d (PlayerHandler.createRecord body env) none).1,
           writeJSON 201 (.player (PlayerHandler.createRecord body env))) ∧
      Sql.hasKey PlayersRow.id (PlayerHandler.Create d (some body) env none).1.players
        (PlayerHandler.createRecord body env).ID = true ∧
      (body.ID = "" →
        (PlayerHandler.createRecord body env).ID ≠ "" ∧
        ∃ sfx : String,
          (PlayerHandler.createRecord body env).ID = toString env.unixMilli ++ sfx ∧
          sfx = hexEncodeToString [env.rand0, env.rand1, env.rand2] ∧
          sfx.length = 6 ∧ ∀ c ∈ sfx.toList, c ∈ "0123456789abcdef".toList) ∧
      (body.ID ≠ "" → (PlayerHandler.createRecord body env).ID = body.ID) ∧
      (PlayerHandler.Create d (some body) env none).2.status = 201 ∧
      (PlayerHandler.Create d (some body) env none).2.contentType = some "application/json" ∧
      (PlayerHandler.Create d (some body) env none).2.body = .player (PlayerHandler.createRecord body env)) ∧
    (∀ body : Media,
      MediaHandler.Create d (some body) env none
        = ((UpsertMedia d (MediaHandler.createRecord body env) none).1,
           writeJSON 201 (.media (MediaHandler.createRecord body env))) ∧
      Sql.hasKey MediaRow.id (MediaHandler.Create d (some body) env none).1.media
        (MediaHandler.createRecord body env).ID = true ∧
      (body.ID = "" →
        (MediaHandler.createRecord body env).ID ≠ "" ∧
        ∃ sfx : String,
          (MediaHandler.createRecord body env).ID = toString env.unixMilli ++ sfx ∧
          sfx = hexEncodeToString [env.rand0, env.rand1, env.rand2] ∧
          sfx.length = 6 ∧ ∀ c ∈ sfx.toList, c ∈ "0123456789abcdef".toList) ∧
      (body.ID ≠ "" → (MediaHandler.createRecord body env).ID = body.ID) ∧
      (MediaHandler.Create d (some body) env none).2.status = 201 ∧
      (MediaHandler.Create d (some body) env none).2.contentType = some "application/json" ∧
      (MediaHandler.Create d (some body) env none).2.body = .media (MediaHandler.createRecord body env)) := by
  have hsfx := hexEncodeToString_three env.rand0 env.rand1 env.rand2
  refine ⟨?_, ?_⟩
  · intro body
    refine ⟨rfl, ?_, ?_, ?_, rfl, rfl, rfl⟩
    · rw [playerCreate_none]
      exact Sql.hasKey_insertOnConflict_self PlayersRow.id playerSet playerSet_id d.players
        (playerValues (PlayerHandler.createRecord body env))
    · intro h
      rw [playerCreateRecord_id, if_pos h]
      exact ⟨generateID_ne_empty env, _, rfl, rfl, hsfx.1, hsfx.2⟩
    · intro h
      rw [playerCreateRecord_id, if_neg h]
  · intro body
    refine ⟨rfl, ?_, ?_, ?_, rfl, rfl, rfl⟩
    · rw [mediaCreate_none]
      exact Sql.hasKey_insertOnConflict_self MediaRow.id mediaSet mediaSet_id d.media
        (mediaValues (MediaHandler.createRecord body env))
    · intro h
      rw [mediaCreateRecord_id, if_pos h]
      exact ⟨generateID_ne_empty env, _, rfl, rfl, hsfx.1, hsfx.2⟩
    · intro h
      rw [mediaCreateRecord_id, if_neg h]

/-- Witness for C8: with the clock at 1700000000000 ms and the random
bytes `ab cd ef`, a player POST without id gets the id `1700000000000abcdef`, and a
media POST with the id `m7` keeps it. -/
theorem create_identifier_witness :
    sampleCreateBody.ID = "" ∧
    (PlayerHandler.createRecord sampleCreateBody sampleEnv).ID = "1700000000000abcdef" ∧
    (PlayerHandler.createRecord sampleCreateBody sampleEnv).ID ≠ "" ∧
    (⟨"m7", "ex1", "image", "aGk=", "pic", ""⟩ : Media).ID ≠ "" ∧
    (MediaHandler.createRecord ⟨"m7", "ex1", "image", "aGk=", "pic", ""⟩ sampleEnv).ID = "m7" ∧
    (PlayerHandler.Create DB.empty (some sampleCreateBody) sampleEnv none).2.body
      = .player (PlayerHandler.createRecord sampleCreateBody sampleEnv) :=
  ⟨by decide, by decide,
   (((create_identifier DB.empty sampleEnv).1 sampleCreateBody).2.2.1 (by decide)).1,
   by decide,
   ((create_identifier DB.empty sampleEnv).2 ⟨"m7", "ex1", "image", "aGk=", "pic", ""⟩).2.2.2.1
     (by decide),
   ((create_identifier DB.empty sampleEnv).1 sampleCreateBody).2.2.2.2.2.2⟩

/-! ## Create with a generated identifier -/

/-- C9 (as stated, refuted): on a store whose player has the id `1700000000000abcdef`,
a POST without id at clock 1700000000000 ms with random bytes `ab cd ef` generates
that same id; the handler answers 201, no row is added, and the stored player is
overwritten. -/
theorem create_generated_id_counterexample :
    sampleCreateBody.ID = "" ∧
    generateID sampleEnv = "1700000000000abcdef" ∧
    Sql.hasKey PlayersRow.id collidingStore.players (generateID sampleEnv) = true ∧
    (PlayerHandler.Create collidingStore (some sampleCreateBody) sampleEnv none).2.status
      = 201 ∧
    (PlayerHandler.Create collidingStore (some sampleCreateBody) sampleEnv none).1.players
      = [⟨"1700000000000abcdef", "Alex", none, none, "U12", none, "",
          "2023-11-14T22:13:20Z", "2024-03-04T10:00:00Z"⟩] ∧
    (PlayerHandler.Create collidingStore (some sampleCreateBody) sampleEnv none).1.players.length
      = collidingStore.players.length := by
  decide

/-- C9 (amended): for the Create handlers of Player and Media, every store, every
reading of clock and randomness and every decoded body with an empty id: the id of
the record is `generateID` of that reading and is not empty; if no row of the table
has that id, then when the engine executes the statement the create appends the
record as a new row and every row there was before is still there unchanged. -/
theorem create_generated_id (d : DB) (env : Env) :
    (∀ body : Player, body.ID = "" →
      (PlayerHandler.createRecord body env).ID = generateID env ∧
      generateID env ≠ "" ∧
      (Sql.hasKey PlayersRow.id d.players (generateID env) = false →
        (PlayerHandler.Create d (some body) env none).1.players
          = d.players ++ [playerValues (PlayerHandler.createRecord body env)])) ∧
    (∀ body : Media, body.ID = "" →
      (MediaHandler.createRecord body env).ID = generateID env ∧
      generateID env ≠ "" ∧
      (Sql.hasKey MediaRow.id d.media (generateID env) = false →
        (MediaHandler.Create d (some body) env none).1.media
          = d.media ++ [mediaValues (MediaHandler.createRecord body env)])) := by
  refine ⟨?_, ?_⟩
  · intro body hb
    have hid : (PlayerHandler.createRecord body env).ID = generateID env := by
      rw [playerCreateRecord_id, if_pos hb]
    refine ⟨hid, generateID_ne_empty env, ?_⟩
    intro hno
    rw [playerCreate_none]
    exact Sql.insertOnConflict_absent PlayersRow.id playerSet d.players
      (playerValues (PlayerHandler.createRecord body env))
      (by rw [show (playerValues (PlayerHandler.createRecord body env)).id
                = (PlayerHandler.createRecord body env).ID from rfl, hid]; exact hno)
  · intro body hb
    have hid : (MediaHandler.createRecord body env).ID = generateID env := by
      rw [mediaCreateRecord_id, if_pos hb]
    refine ⟨hid, generateID_ne_empty env, ?_⟩
    intro hno
    rw [mediaCreate_none]
    exact Sql.insertOnConflict_absent MediaRow.id mediaSet d.media
      (mediaValues (MediaHandler.createRecord body env))
      (by rw [show (mediaValues (MediaHandler.createRecord body env)).id
                = (MediaHandler.createRecord body env).ID from rfl, hid]; exact hno)

/-- Witness for C9: on the sample store, which has no player with the
generated id, the POST without id appends a row. -/
theorem create_generated_id_witness :
    sampleCreateBody.ID = "" ∧
    Sql.hasKey PlayersRow.id sampleStore.players (generateID sampleEnv) = false ∧
    (PlayerHandler.Create sampleStore (some sampleCreateBody) sampleEnv none).1.players
      = sampleStore.players
          ++ [playerValues (PlayerHandler.createRecord sampleCreateBody sampleEnv)] :=
  ⟨by decide, by decide,
   ((create_generated_id sampleStore sampleEnv).1 sampleCreateBody (by decide)).2.2
     (by decide)⟩

/-! ## The week plan PUT scenario -/

/-- C10 (as stated, refuted): on the empty store, a PUT of `wp1` with totalRPE 42 when
the layer reads `2024-03-04T10:00:00Z`, then a PUT of `wp1` with totalRPE 50 when it
reads `2024-03-04T10:05:00Z`: both answer 200, the stored row keeps the `created_at`
of the first PUT, and the record the second PUT returns carries the later time. -/
theorem week_plan_put_counterexample :
    Sql.hasKey WeekPlansRow.id DB.empty.week_plans "wp1" = false ∧
    (WeekPlanHandler.Update DB.empty "wp1" (some (weekPlanBody 42)) sampleEnv none).2
      = writeJSON 200 (.weekPlan ⟨"wp1", "p1", "2024-W10", ⟨"\"[]\""⟩, 42,
          "2024-03-04T10:00:00Z"⟩) ∧
    (WeekPlanHandler.Update
        (WeekPlanHandler.Update DB.empty "wp1" (some (weekPlanBody 42)) sampleEnv none).1
        "wp1" (some (weekPlanBody 50)) ⟨1700000300000, 1, 2, 3, "2024-03-04T10:05:00Z"⟩ none).2
      = writeJSON 200 (.weekPlan ⟨"wp1", "p1", "2024-W10", ⟨"\"[]\""⟩, 50,
          "2024-03-04T10:05:00Z"⟩) ∧
    (WeekPlanHandler.Update
        (WeekPlanHandler.Update DB.empty "wp1" (some (weekPlanBody 42)) sampleEnv none).1
        "wp1" (some (weekPlanBody 50)) ⟨1700000300000, 1, 2, 3, "2024-03-04T10:05:00Z"⟩
        none).1.week_plans
      = [⟨"wp1", "p1", "2024-W10", "\"[]\"", 50, "2024-03-04T10:00:00Z"⟩] ∧
    "2024-03-04T10:05:00Z" ≠ "2024-03-04T10:00:00Z" ∧
    (WeekPlanHandler.Update
        (WeekPlanHandler.Update DB.empty "wp1" (some (weekPlanBody 42)) sampleEnv none).1
        "wp1" (some (weekPlanBody 50)) ⟨1700000300000, 1, 2, 3, "2024-03-04T10:05:00Z"⟩
        none).2.body
      = .weekPlan ⟨"wp1", "p1", "2024-W10", ⟨"\"[]\""⟩, 50, "2024-03-04T10:05:00Z"⟩ := by
  decide

theorem weekPlanBody_record (rpe : Int) (env : Env) :
    WeekPlanHandler.updateRecord "wp1" (weekPlanBody rpe) env
      = ⟨"wp1", "p1", "2024-W10", ⟨"\"[]\""⟩, rpe, env.now⟩ := by
  simp [WeekPlanHandler.updateRecord, weekPlanBody]

/-- C10 (amended): for every store without a row `wp1` and every reading `env1` of the
clock, the PUT of `wp1` with playerId `p1`, week `2024-W10`, days `"[]"`, totalRPE 42
and no `createdAt` answers 200 with the record stamped `env1.now` and appends that
row; a second PUT of `wp1` with any totalRPE `rpe` and no `createdAt`, at any reading
`env2`, answers 200; the stored row then has `created_at` unchanged (`env1.now`) and
`total_rpe` equal to `rpe`; the returned record has `TotalRPE` equal to `rpe` and
carries `env2.now` as `CreatedAt`.  Status and body of both responses are stated as
such. -/
theorem week_plan_put (d : DB) (env1 env2 : Env) (rpe : Int)
    (h : Sql.hasKey WeekPlansRow.id d.week_plans "wp1" = false) :
    (WeekPlanHandler.Update d "wp1" (some (weekPlanBody 42)) env1 none).2
      = writeJSON 200 (.weekPlan ⟨"wp1", "p1", "2024-W10", ⟨"\"[]\""⟩, 42, env1.now⟩) ∧
    (WeekPlanHandler.Update d "wp1" (some (weekPlanBody 42)) env1 none).1.week_plans
      = d.week_plans ++ [⟨"wp1", "p1", "2024-W10", "\"[]\"", 42, env1.now⟩] ∧
    (WeekPlanHandler.Update
        (WeekPlanHandler.Update d "wp1" (some (weekPlanBody 42)) env1 none).1
        "wp1" (some (weekPlanBody rpe)) env2 none).2
      = writeJSON 200 (.weekPlan ⟨"wp1", "p1", "2024-W10", ⟨"\"[]\""⟩, rpe, env2.now⟩) ∧
    Sql.queryRow WeekPlansRow.id
      (WeekPlanHandler.Update
        (WeekPlanHandler.Update d "wp1" (some (weekPlanBody 42)) env1 none).1
        "wp1" (some (weekPlanBody rpe)) env2 none).1.week_plans "wp1"
      = some ⟨"wp1", "p1", "2024-W10", "\"[]\"", rpe, env1.now⟩ ∧
    (WeekPlanHandler.Update d "wp1" (some (weekPlanBody 42)) env1 none).2.status = 200 ∧
    (WeekPlanHandler.Update d "wp1" (some (weekPlanBody 42)) env1 none).2.body
      = .weekPlan ⟨"wp1", "p1", "2024-W10", ⟨"\"[]\""⟩, 42, env1.now⟩ ∧
    (WeekPlanHandler.Update
        (WeekPlanHandler.Update d "wp1" (some (weekPlanBody 42)) env1 none).1
        "wp1" (some (weekPlanBody rpe)) env2 none).2.status = 200 ∧
    (WeekPlanHandler.Update
        (WeekPlanHandler.Update d "wp1" (some (weekPlanBody 42)) env1 none).1
        "wp1" (some (weekPlanBody rpe)) env2 none).2.body
      = .weekPlan ⟨"wp1", "p1", "2024-W10", ⟨"\"[]\""⟩, rpe, env2.now⟩ := by
  have hid : ("wp1" : String) ≠ "" := by decide
  have h1 : (WeekPlanHandler.Update d "wp1" (some (weekPlanBody 42)) env1 none).1.week_plans
      = d.week_plans ++ [⟨"wp1", "p1", "2024-W10", "\"[]\"", 42, env1.now⟩] := by
    rw [weekPlanUpdate_none d "wp1" _ env1 hid, weekPlanBody_record]
    exact Sql.insertOnConflict_absent WeekPlansRow.id weekPlanSet d.week_plans _ h
  have hq : Sql.queryRow WeekPlansRow.id
      (WeekPlanHandler.Update d "wp1" (some (weekPlanBody 42)) env1 none).1.week_plans "wp1"
      = some ⟨"wp1", "p1", "2024-W10", "\"[]\"", 42, env1.now⟩ := by
    rw [weekPlanUpdate_none d "wp1" _ env1 hid, weekPlanBody_record]
    exact Sql.queryRow_insertOnConflict_of_absent WeekPlansRow.id weekPlanSet weekPlanSet_id
      d.week_plans ⟨"wp1", "p1", "2024-W10", "\"[]\"", 42, env1.now⟩ h
  have r1 : (WeekPlanHandler.Update d "wp1" (some (weekPlanBody 42)) env1 none).2
      = writeJSON 200 (.weekPlan ⟨"wp1", "p1", "2024-W10", ⟨"\"[]\""⟩, 42, env1.now⟩) := by
    rw [weekPlanUpdate_none d "wp1" _ env1 hid, weekPlanBody_record]
  have r2 : (WeekPlanHandler.Update
        (WeekPlanHandler.Update d "wp1" (some (weekPlanBody 42)) env1 none).1
        "wp1" (some (weekPlanBody rpe)) env2 none).2
      = writeJSON 200 (.weekPlan ⟨"wp1", "p1", "2024-W10", ⟨"\"[]\""⟩, rpe, env2.now⟩) := by
    rw [weekPlanUpdate_none _ "wp1" _ env2 hid, weekPlanBody_record]
  refine ⟨r1, h1, r2, ?_, by rw [r1]; rfl, by rw [r1]; rfl, by rw [r2]; rfl,
    by rw [r2]; rfl⟩
  · rw [weekPlanUpdate_none _ "wp1" _ env2 hid, weekPlanBody_record]
    exact Sql.queryRow_insertOnConflict_of_some WeekPlansRow.id weekPlanSet weekPlanSet_id
      _ ⟨"wp1", "p1", "2024-W10", "\"[]\"", rpe, env2.now⟩ _ hq

/-- Witness for C10: the scenario on the sample store after its plan `wp1`
was deleted, with a second PUT of totalRPE 50 five minutes later. -/
theorem week_plan_put_witness :
    Sql.hasKey WeekPlansRow.id (DeleteWeekPlan sampleStore "wp1" none).1.week_plans "wp1"
      = false ∧
    Sql.queryRow WeekPlansRow.id
      (WeekPlanHandler.Update
        (WeekPlanHandler.Update (DeleteWeekPlan sampleStore "wp1" none).1 "wp1"
          (some (weekPlanBody 42)) sampleEnv none).1
        "wp1" (some (weekPlanBody 50)) ⟨1700000300000, 1, 2, 3, "2024-03-04T10:05:00Z"⟩
        none).1.week_plans "wp1"
      = some ⟨"wp1", "p1", "2024-W10", "\"[]\"", 50, "2024-03-04T10:00:00Z"⟩ ∧
    (WeekPlanHandler.Update
        (WeekPlanHandler.Update (DeleteWeekPlan sampleStore "wp1" none).1 "wp1"
          (some (weekPlanBody 42)) sampleEnv none).1
        "wp1" (some (weekPlanBody 50)) ⟨1700000300000, 1, 2, 3, "2024-03-04T10:05:00Z"⟩
        none).2.body
      = .weekPlan ⟨"wp1", "p1", "2024-W10", ⟨"\"[]\""⟩, 50, "2024-03-04T10:05:00Z"⟩ :=
  ⟨by decide,
   (week_plan_put (DeleteWeekPlan sampleStore "wp1" none).1 sampleEnv
     ⟨1700000300000, 1, 2, 3, "2024-03-04T10:05:00Z"⟩ 50 (by decide)).2.2.2.1,
   (week_plan_put (DeleteWeekPlan sampleStore "wp1" none).1 sampleEnv
     ⟨1700000300000, 1, 2, 3, "2024-03-04T10:05:00Z"⟩ 50 (by decide)).2.2.2.2.2.2.2⟩

/-! ## The PRIMARY KEY constraints are kept -/

theorem wf_empty : DB.empty.WF := by decide

/-- Every upsert and every delete of the store keeps the PRIMARY KEY constraints,
whatever the engine does with the statement. -/
theorem wf_preserved (d : DB) (fault : Option String) (hwf : d.WF) :
    (∀ p, (UpsertPlayer d p fault).1.WF) ∧
    (∀ p, (UpsertWeekPlan d p fault).1.WF) ∧
    (∀ m, (UpsertMedia d m fault).1.WF) ∧
    (∀ l, (UpsertPlayerLog d l fault).1.WF) ∧
    (∀ s, (UpsertSetting d s fault).1.WF) ∧
    (∀ id, (DeletePlayer d id fault).1.WF) ∧
    (∀ id, (DeleteWeekPlan d id fault).1.WF) ∧
    (∀ id, (DeleteMedia d id fault).1.WF) := by
  obtain ⟨h1, h2, h3, h4, h5⟩ := hwf
  cases fault with
  | some e => exact ⟨fun _ => ⟨h1, h2, h3, h4, h5⟩, fun _ => ⟨h1, h2, h3, h4, h5⟩,
      fun _ => ⟨h1, h2, h3, h4, h5⟩, fun _ => ⟨h1, h2, h3, h4, h5⟩,
      fun _ => ⟨h1, h2, h3, h4, h5⟩, fun _ => ⟨h1, h2, h3, h4, h5⟩,
      fun _ => ⟨h1, h2, h3, h4, h5⟩, fun _ => ⟨h1, h2, h3, h4, h5⟩⟩
  | none =>
    refine ⟨?_, ?_, ?_, ?_, ?_, ?_, ?_, ?_⟩
    · intro p
      exact ⟨Sql.uniqueKeys_insertOnConflict PlayersRow.id playerSet playerSet_id _ _ h1,
        h2, h3, h4, h5⟩
    · intro p
      exact ⟨h1, Sql.uniqueKeys_insertOnConflict WeekPlansRow.id weekPlanSet weekPlanSet_id
        _ _ h2, h3, h4, h5⟩
    · intro m
      exact ⟨h1, h2, Sql.uniqueKeys_insertOnConflict MediaRow.id mediaSet mediaSet_id _ _ h3,
        h4, h5⟩
    · intro l
      exact ⟨h1, h2, h3, Sql.uniqueKeys_insertOnConflict PlayerLogsRow.id playerLogSet
        playerLogSet_id _ _ h4, h5⟩
    · intro s
      exact ⟨h1, h2, h3, h4, Sql.uniqueKeys_insertOnConflict SettingsRow.key settingSet
        settingSet_key _ _ h5⟩
    · intro id
      rw [DeletePlayer_none]
      exact ⟨Sql.uniqueKeys_deleteWhere PlayersRow.id _ _ h1, h2, h3, h4, h5⟩
    · intro id
      rw [DeleteWeekPlan_none]
      exact ⟨h1, Sql.uniqueKeys_deleteWhere WeekPlansRow.id _ _ h2, h3, h4, h5⟩
    · intro id
      rw [DeleteMedia_none]
      exact ⟨h1, h2, Sql.uniqueKeys_deleteWhere MediaRow.id _ _ h3, h4, h5⟩

/-! ## Validation errors -/

/-- C11: for every handler that takes a path identifier or a body, every store and
every outcome of the engine: if the path identifier or key is empty, or the body
fails to decode, the status is 400 and the store after the request is the store
before it.  The handlers are Create, Update and Delete of Player; Get, Update and
Delete of WeekPlan; Create and Delete of Media; Get and Update of PlayerLog; Get and
Update of Setting. -/
theorem validation_error_no_store (d : DB) (env : Env) (fault : Option String) :
    ((PlayerHandler.Create d none env fault).1 = d ∧
     (PlayerHandler.Create d none env fault).2.status = 400) ∧
    (∀ (id : String) (body : Option Player), id = "" ∨ body = none →
      (PlayerHandler.Update d id body env fault).1 = d ∧
      (PlayerHandler.Update d id body env fault).2.status = 400) ∧
    ((PlayerHandler.Delete d "" fault).1 = d ∧
     (PlayerHandler.Delete d "" fault).2.status = 400) ∧
    ((WeekPlanHandler.Get d "" fault).1 = d ∧
     (WeekPlanHandler.Get d "" fault).2.status = 400) ∧
    (∀ (id : String) (body : Option WeekPlan), id = "" ∨ body = none →
      (WeekPlanHandler.Update d id body env fault).1 = d ∧
      (WeekPlanHandler.Update d id body env fault).2.status = 400) ∧
    ((WeekPlanHandler.Delete d "" fault).1 = d ∧
     (WeekPlanHandler.Delete d "" fault).2.status = 400) ∧
    ((MediaHandler.Create d none env fault).1 = d ∧
     (MediaHandler.Create d none env fault).2.status = 400) ∧
    ((MediaHandler.Delete d "" fault).1 = d ∧
     (MediaHandler.Delete d "" fault).2.status = 400) ∧
    ((PlayerLogHandler.Get d "" fault).1 = d ∧
     (PlayerLogHandler.Get d "" fault).2.status = 400) ∧
    (∀ (key : String) (body : Option PlayerLog), key = "" ∨ body = none →
      (PlayerLogHandler.Update d key body env fault).1 = d ∧
      (PlayerLogHandler.Update d key body env fault).2.status = 400) ∧
    ((SettingHandler.Get d "" fault).1 = d ∧
     (SettingHandler.Get d "" fault).2.status = 400) ∧
    (∀ (key : String) (body : Option Setting), key = "" ∨ body = none →
      (SettingHandler.Update d key body fault).1 = d ∧
      (SettingHandler.Update d key body fault).2.status = 400) := by
  refine ⟨⟨rfl, rfl⟩, ?_, ⟨rfl, rfl⟩, ⟨rfl, rfl⟩, ?_, ⟨rfl, rfl⟩, ⟨rfl, rfl⟩, ⟨rfl, rfl⟩,
    ⟨rfl, rfl⟩, ?_, ⟨rfl, rfl⟩, ?_⟩
  · intro id body h
    unfold PlayerHandler.Update
    by_cases hid : id = ""
    · rw [if_pos hid]; exact ⟨rfl, rfl⟩
    · rw [if_neg hid]
      rcases h with h | h
      · exact absurd h hid
      · subst h; exact ⟨rfl, rfl⟩
  · intro id body h
    unfold WeekPlanHandler.Update
    by_cases hid : id = ""
    · rw [if_pos hid]; exact ⟨rfl, rfl⟩
    · rw [if_neg hid]
      rcases h with h | h
      · exact absurd h hid
      · subst h; exact ⟨rfl, rfl⟩
  · intro key body h
    unfold PlayerLogHandler.Update
    by_cases hid : key = ""
    · rw [if_pos hid]; exact ⟨rfl, rfl⟩
    · rw [if_neg hid]
      rcases h with h | h
      · exact absurd h hid
      · subst h; exact ⟨rfl, rfl⟩
  · intro key body h
    unfold SettingHandler.Update
    by_cases hid : key = ""
    · rw [if_pos hid]; exact ⟨rfl, rfl⟩
    · rw [if_neg hid]
      rcases h with h | h
      · exact absurd h hid
      · subst h; exact ⟨rfl, rfl⟩

/-- Witness for C11: on the sample store a player PUT on the empty path id with a
decodable body, and a setting PUT on key `theme` whose body fails to decode, both
answer 400 and leave the store as it was. -/
theorem validation_error_no_store_witness :
    (("" : String) = "" ∨ some samplePlayer = none) ∧
    (PlayerHandler.Update sampleStore "" (some samplePlayer) sampleEnv none).1 = sampleStore ∧
    (PlayerHandler.Update sampleStore "" (some samplePlayer) sampleEnv none).2.status = 400 ∧
    (("theme" : String) = "" ∨ (none : Option Setting) = none) ∧
    (SettingHandler.Update sampleStore "theme" none none).1 = sampleStore ∧
    (SettingHandler.Update sampleStore "theme" none none).2.status = 400 :=
  ⟨Or.inl rfl,
   ((validation_error_no_store sampleStore sampleEnv none).2.1 "" (some samplePlayer)
     (Or.inl rfl)).1,
   ((validation_error_no_store sampleStore sampleEnv none).2.1 "" (some samplePlayer)
     (Or.inl rfl)).2,
   Or.inr rfl,
   ((validation_error_no_store sampleStore sampleEnv none).2.2.2.2.2.2.2.2.2.2.2 "theme" none
     (Or.inr rfl)).1,
   ((validation_error_no_store sampleStore sampleEnv none).2.2.2.2.2.2.2.2.2.2.2 "theme" none
     (Or.inr rfl)).2⟩

/-! ## The player POST scenario -/

/-- The record `PlayerHandler.Create` builds from a body that has neither id nor
`createdAt`. -/
theorem playerCreateRecord_fresh (body : Player) (env : Env) (hid : body.ID = "")
    (hc : body.CreatedAt = "") :
    PlayerHandler.createRecord body env
      = { body with ID := generateID env, CreatedAt := env.now, UpdatedAt := env.now } := by
  cases body
  simp_all [PlayerHandler.createRecord]

/-- The row `UpsertPlayer` leaves under the id of the record: the values of the record,
with the `created_at` of the row stored before under that id when there was one. -/
theorem upsertPlayer_row (d : DB) (p : Player) :
    Sql.queryRow PlayersRow.id (UpsertPlayer d p none).1.players p.ID
      = some ⟨p.ID, p.Name, p.Height, p.Weight, p.Level, p.DOB, p.Notes,
              ((Sql.queryRow PlayersRow.id d.players p.ID).map PlayersRow.created_at).getD
                p.CreatedAt, p.UpdatedAt⟩ := by
  cases hq : Sql.queryRow PlayersRow.id d.players p.ID with
  | none =>
    exact Sql.queryRow_insertOnConflict_of_absent PlayersRow.id playerSet playerSet_id
      d.players (playerValues p) ((Sql.queryRow_eq_none_iff _ _ _).1 hq)
  | some old =>
    have h := Sql.queryRow_insertOnConflict_of_some PlayersRow.id playerSet playerSet_id
      d.players (playerValues p) old hq
    have hk : old.id = p.ID := (Sql.queryRow_some _ _ _ _ hq).1
    have he : playerSet old (playerValues p)
        = ⟨p.ID, p.Name, p.Height, p.Weight, p.Level, p.DOB, p.Notes, old.created_at,
           p.UpdatedAt⟩ := by
      cases old; cases p; simp_all [playerSet, playerValues]
    rw [he] at h
    exact h

/-- C12: for every store, every reading of clock and randomness and every decoded
Player body with empty id and empty `createdAt`, when the engine executes the
statement `PlayerHandler.Create` answers 201 with a record whose id is not empty,
whose `CreatedAt` equals its `UpdatedAt`, whose name, level and notes are those of the
body, and whose height, weight and dob are those of the body, hence nil when the body
omits them; the store afterwards is the one `UpsertPlayer` leaves for that same
record.  The response is JSON and its body is the record with the generated id, the
fields of the body and the time read in both timestamps; the row stored under the
generated id holds the same values (with the `created_at` of an earlier row of that
id, if there was one), and is appended as a new row when no row had that id. -/
theorem player_post (d : DB) (env : Env) (body : Player) (hid : body.ID = "")
    (hc : body.CreatedAt = "") :
    (PlayerHandler.Create d (some body) env none).2
      = writeJSON 201 (.player (PlayerHandler.createRecord body env)) ∧
    (PlayerHandler.Create d (some body) env none).2.status = 201 ∧
    (PlayerHandler.Create d (some body) env none).1
      = (UpsertPlayer d (PlayerHandler.createRecord body env) none).1 ∧
    (PlayerHandler.createRecord body env).ID ≠ "" ∧
    (PlayerHandler.createRecord body env).CreatedAt
      = (PlayerHandler.createRecord body env).UpdatedAt ∧
    (PlayerHandler.createRecord body env).Name = body.Name ∧
    (PlayerHandler.createRecord body env).Level = body.Level ∧
    (PlayerHandler.createRecord body env).Notes = body.Notes ∧
    (PlayerHandler.createRecord body env).Height = body.Height ∧
    (PlayerHandler.createRecord body env).Weight = body.Weight ∧
    (PlayerHandler.createRecord body env).DOB = body.DOB ∧
    (body.Height = none → (PlayerHandler.createRecord body env).Height = none) ∧
    (body.Weight = none → (PlayerHandler.createRecord body env).Weight = none) ∧
    (body.DOB = none → (PlayerHandler.createRecord body env).DOB = none) ∧
    (PlayerHandler.Create d (some body) env none).2.contentType = some "application/json" ∧
    (PlayerHandler.Create d (some body) env none).2.body
      = .player ⟨generateID env, body.Name, body.Height, body.Weight, body.Level, body.DOB,
                 body.Notes, env.now, env.now⟩ ∧
    generateID env ≠ "" ∧
    Sql.queryRow PlayersRow.id (PlayerHandler.Create d (some body) env none).1.players
        (generateID env)
      = some ⟨generateID env, body.Name, body.Height, body.Weight, body.Level, body.DOB,
              body.Notes,
              ((Sql.queryRow PlayersRow.id d.players (generateID env)).map
                PlayersRow.created_at).getD env.now,
              env.now⟩ ∧
    (Sql.hasKey PlayersRow.id d.players (generateID env) = false →
      (PlayerHandler.Create d (some body) env none).1.players
        = d.players ++ [⟨generateID env, body.Name, body.Height, body.Weight, body.Level,
                         body.DOB, body.Notes, env.now, env.now⟩]) := by
  have hrec := playerCreateRecord_fresh body env hid hc
  have hrec' : PlayerHandler.createRecord body env
      = ⟨generateID env, body.Name, body.Height, body.Weight, body.Level, body.DOB,
         body.Notes, env.now, env.now⟩ := by
    rw [hrec]
  refine ⟨rfl, rfl, rfl, ?_, ?_, ?_, ?_, ?_, ?_, ?_, ?_, ?_, ?_, ?_, rfl, ?_,
    generateID_ne_empty env, ?_, ?_⟩
  · rw [hrec]; exact generateID_ne_empty env
  · rw [hrec]
  · rw [hrec]
  · rw [hrec]
  · rw [hrec]
  · rw [hrec]
  · rw [hrec]
  · rw [hrec]
  · rw [hrec]; intro h; exact h
  · rw [hrec]; intro h; exact h
  · rw [hrec]; intro h; exact h
  · rw [playerCreate_none, hrec']
    rfl
  · rw [playerCreate_none, hrec']
    exact upsertPlayer_row d _
  · intro hno
    rw [playerCreate_none, hrec']
    exact Sql.insertOnConflict_absent PlayersRow.id playerSet d.players _ hno

/-- Witness for C12: the body `{"name":"Alex","level":"U12"}` on the sample store, with
the clock at 1700000000000 ms, gives 201 and the record with the generated id, both
timestamps equal and no height, weight or dob, in the response and in the row
appended to the table. -/
theorem player_post_witness :
    alexBody.ID = "" ∧ alexBody.CreatedAt = "" ∧
    (PlayerHandler.Create sampleStore (some alexBody) sampleEnv none).2.status = 201 ∧
    PlayerHandler.createRecord alexBody sampleEnv
      = ⟨"1700000000000abcdef", "Alex", none, none, "U12", none, "", "2024-03-04T10:00:00Z",
         "2024-03-04T10:00:00Z"⟩ ∧
    (PlayerHandler.createRecord alexBody sampleEnv).CreatedAt
      = (PlayerHandler.createRecord alexBody sampleEnv).UpdatedAt ∧
    (PlayerHandler.Create sampleStore (some alexBody) sampleEnv none).2.body
      = .player ⟨generateID sampleEnv, alexBody.Name, alexBody.Height, alexBody.Weight,
                 alexBody.Level, alexBody.DOB, alexBody.Notes, sampleEnv.now, sampleEnv.now⟩ ∧
    (PlayerHandler.Create sampleStore (some alexBody) sampleEnv none).2.body
      = .player ⟨"1700000000000abcdef", "Alex", none, none, "U12", none, "",
                 "2024-03-04T10:00:00Z", "2024-03-04T10:00:00Z"⟩ ∧
    Sql.hasKey PlayersRow.id sampleStore.players (generateID sampleEnv) = false ∧
    (PlayerHandler.Create sampleStore (some alexBody) sampleEnv none).1.players
      = sampleStore.players
          ++ [⟨generateID sampleEnv, alexBody.Name, alexBody.Height, alexBody.Weight,
               alexBody.Level, alexBody.DOB, alexBody.Notes, sampleEnv.now, sampleEnv.now⟩] :=
  ⟨by decide, by decide,
   (player_post sampleStore sampleEnv alexBody (by decide) (by decide)).2.1,
   by decide,
   (player_post sampleStore sampleEnv alexBody (by decide) (by decide)).2.2.2.2.1,
   (player_post sampleStore sampleEnv alexBody (by decide)
     (by decide)).2.2.2.2.2.2.2.2.2.2.2.2.2.2.2.1,
   by decide,
   by decide,
   (player_post sampleStore sampleEnv alexBody (by decide)
     (by decide)).2.2.2.2.2.2.2.2.2.2.2.2.2.2.2.2.2.2 (by decide)⟩

/-! ## Setting: get after put -/

/-- The response and store of `SettingHandler.Update` on a non-empty key when the
engine executes the statement. -/
theorem settingUpdate_none (d : DB) (key : String) (s : Setting) (hkey : key ≠ "") :
    SettingHandler.Update d key (some s) none
      = ((UpsertSetting d (SettingHandler.updateRecord key s) none).1,
         writeJSON 200 (.setting (SettingHandler.updateRecord key s))) := by
  simp only [SettingHandler.Update, hkey, if_false]
  rfl

/-- The row `UpsertSetting` leaves under the key of the record is the record. -/
theorem upsertSetting_row (d : DB) (s : Setting) :
    Sql.queryRow SettingsRow.key (UpsertSetting d s none).1.settings s.Key
      = some (settingValues s) := by
  cases hq : Sql.queryRow SettingsRow.key d.settings s.Key with
  | none =>
    exact Sql.queryRow_insertOnConflict_of_absent SettingsRow.key settingSet settingSet_key
      d.settings (settingValues s) ((Sql.queryRow_eq_none_iff _ _ _).1 hq)
  | some old =>
    have h := Sql.queryRow_insertOnConflict_of_some SettingsRow.key settingSet settingSet_key
      d.settings (settingValues s) old hq
    rw [settingSet_eq old (settingValues s) (Sql.queryRow_some _ _ _ _ hq).1] at h
    exact h

/-- C13: for every store, every non-empty key `k`, every value `v` and every key the
body carries, when the engine executes the statements: `SettingHandler.Get` for `k`
on a store with no row `k` answers 404 and leaves the store as it was;
`SettingHandler.Update` on path key `k` with body value `v` answers 200, whether or
not a row `k` existed; and `SettingHandler.Get` for `k` on the store it leaves answers
200 with exactly the setting of key `k` and value `v`, leaving the store as it was. -/
theorem setting_get_after_put (d : DB) (k v bodyKey : String) (hk : k ≠ "") :
    (Sql.hasKey SettingsRow.key d.settings k = false →
      (SettingHandler.Get d k none).2.status = 404 ∧ (SettingHandler.Get d k none).1 = d) ∧
    (SettingHandler.Update d k (some ⟨bodyKey, v⟩) none).2.status = 200 ∧
    (SettingHandler.Update d k (some ⟨bodyKey, v⟩) none).2.body = .setting ⟨k, v⟩ ∧
    SettingHandler.Get (SettingHandler.Update d k (some ⟨bodyKey, v⟩) none).1 k none
      = ((SettingHandler.Update d k (some ⟨bodyKey, v⟩) none).1,
         writeJSON 200 (.setting ⟨k, v⟩)) := by
  have hup := settingUpdate_none d k ⟨bodyKey, v⟩ hk
  have hrec : SettingHandler.updateRecord k ⟨bodyKey, v⟩ = ⟨k, v⟩ := rfl
  rw [hrec] at hup
  refine ⟨?_, ?_, ?_, ?_⟩
  · intro hno
    have hq := (Sql.queryRow_eq_none_iff SettingsRow.key d.settings k).2 hno
    have hget : SettingHandler.Get d k none = (d, httpError "not found" 404) := by
      simp only [SettingHandler.Get, hk, if_false, GetSetting, hq]
    rw [hget]
    exact ⟨rfl, rfl⟩
  · rw [hup]; rfl
  · rw [hup]; rfl
  · rw [hup]
    have hrow := upsertSetting_row d ⟨k, v⟩
    simp only [SettingHandler.Get, hk, if_false, GetSetting, hrow]
    rfl

/-- Witness for C13: on the empty store GET of `theme` answers 404; after the PUT of
`{"value":"dark"}` on `theme` the GET answers 200 with key `theme` and value `dark`. -/
theorem setting_get_after_put_witness :
    ("theme" : String) ≠ "" ∧
    Sql.hasKey SettingsRow.key DB.empty.settings "theme" = false ∧
    (SettingHandler.Get DB.empty "theme" none).2.status = 404 ∧
    (SettingHandler.Update DB.empty "theme" (some darkBody) none).2.status = 200 ∧
    (SettingHandler.Get (SettingHandler.Update DB.empty "theme" (some darkBody) none).1
        "theme" none).2
      = writeJSON 200 (.setting ⟨"theme", "dark"⟩) :=
  ⟨by decide, by decide,
   ((setting_get_after_put DB.empty "theme" "dark" "" (by decide)).1 (by decide)).1,
   (setting_get_after_put DB.empty "theme" "dark" "" (by decide)).2.1,
   congrArg Prod.snd (setting_get_after_put DB.empty "theme" "dark" "" (by decide)).2.2.2⟩

/-! ## Reading back a record stored without its JSON field -/

/-- A week plan stored from a body without `days` has the empty text in its row; the
encoder does not take it, so GET answers 200 with an empty body, while a plan whose
row holds a JSON text is answered with the plan. -/
theorem weekPlanGet_stored_without_days :
    jsonValid "" = false ∧
    (WeekPlanHandler.Get
        (WeekPlanHandler.Update DB.empty "wp1" (some ⟨"", "p1", "2024-W10", ⟨""⟩, 42, ""⟩)
          sampleEnv none).1 "wp1" none).2
      = writeJSON 200 .empty ∧
    (WeekPlanHandler.Get sampleStore "wp1" none).2
      = writeJSON 200 (.weekPlan ⟨"wp1", "p1", "2024-W10", ⟨"[]"⟩, 42, "2024-01-01T00:00:00Z"⟩) := by
  decide

end SwAnalyse
